import Mathlib

/-!
Verification development for the AI Trip Planner intent-routing and
response-composition pipeline.

The definitions below are a shallow embedding, translated from the
TypeScript source of the repository:
  * `backend/src/services/openai.service.ts` (intent detection, parameter
    extraction, IATA resolution, date normalization, formatting, handlers,
    response orchestration),
  * `backend/src/features/flights/services/amadeus.service.ts` (provider
    adapter), and
  * `backend/src/features/flights/controllers/booking.controller.ts`
    (booking flow).

Modelling conventions:
  * JavaScript strings are `String` / `List Char`; the JS string methods
    used by the source (`toLowerCase`, `trim`, `includes`, `replace`,
    `substring`, `toUpperCase`) are modelled by the `js*` functions below
    (ASCII scope, which covers every string the source manipulates).
  * JS regular expressions are transcribed literally into the small `RE`
    syntax below and run by a backtracking matcher with JS semantics
    (leftmost match, ordered alternation, greedy/lazy quantifiers,
    word boundaries, case-insensitive flag via lower-casing).
  * Dates are day ordinals (`Int`, days since 1970-01-01, the proleptic
    Gregorian civil calendar); `new Date(string)` is modelled by
    `jsNewDate` (V8 semantics for the string shapes reachable here, no
    time-of-day component), `toISOString().split('T')[0]` by `isoOfDay`.
  * Prices (decimal strings read with `parseFloat`) are rationals.
  * The network is an oracle carried in an environment record; each
    provider-adapter operation records the API calls it attempts.
-/

set_option maxRecDepth 4000

abbrev Chars := List Char

/-- JS `String.prototype.toLowerCase` (ASCII scope). -/
def jsToLowerList (l : Chars) : Chars := l.map Char.toLower

/-- JS `String.prototype.toUpperCase` (ASCII scope). -/
def jsToUpperList (l : Chars) : Chars := l.map Char.toUpper

/-- JS `String.prototype.trim` (ASCII whitespace scope). -/
def jsTrimList (l : Chars) : Chars :=
  ((l.dropWhile Char.isWhitespace).reverse.dropWhile Char.isWhitespace).reverse

def jsToLower (s : String) : String := String.mk (jsToLowerList s.data)

def jsToUpper (s : String) : String := String.mk (jsToUpperList s.data)

def jsTrim (s : String) : String := String.mk (jsTrimList s.data)

/-- Does `hay` begin with `needle`? -/
def startsList : Chars → Chars → Bool
  | [], _ => true
  | _ :: _, [] => false
  | a :: as, b :: bs => (a == b) && startsList as bs

/-- Does `hay` contain `needle` as a contiguous run? -/
def hasSub : Chars → Chars → Bool
  | n, [] => n.isEmpty
  | n, hay@(_ :: t) => startsList n hay || hasSub n t

/-- JS `hay.includes(needle)`. -/
def jsIncludes (hay needle : String) : Bool := hasSub needle.data hay.data

/-- JS `\w` character class. -/
def wordChar (c : Char) : Bool := c.isAlphanum || c == '_'

/-- JS `\s` character class (ASCII scope). -/
def spaceChar (c : Char) : Bool := c.isWhitespace

/-- Syntax of the regular expressions the source uses: character classes,
sequencing, ordered alternation, greedy/lazy star, capturing groups, word
boundaries and anchors. -/
inductive RE where
  | eps
  | cls (f : Char → Bool)
  | seq (a b : RE)
  | alt (a b : RE)
  | star (greedy : Bool) (a : RE)
  | grp (i : Nat) (a : RE)
  | wordB
  | bos
  | eos

/-- A literal, matched case-insensitively (all source regexes carry `/i`). -/
def litRE (s : String) : RE :=
  (s.data.map (fun c => RE.cls (fun x => x.toLower == c.toLower))).foldr RE.seq RE.eps

def catRE (l : List RE) : RE := l.foldr RE.seq RE.eps

def altListRE : List RE → RE
  | [] => RE.cls (fun _ => false)
  | [r] => r
  | r :: rs => RE.alt r (altListRE rs)

def optRE (r : RE) : RE := RE.alt r RE.eps

def plusRE (r : RE) : RE := RE.seq r (RE.star true r)

def lazyPlusRE (r : RE) : RE := RE.seq r (RE.star false r)

def starRE (r : RE) : RE := RE.star true r

def wsRE : RE := RE.cls spaceChar

def wordRE : RE := RE.cls wordChar

def reSize : RE → Nat
  | .eps => 1
  | .cls _ => 1
  | .seq a b => reSize a + reSize b + 1
  | .alt a b => reSize a + reSize b + 1
  | .star _ a => reSize a + 1
  | .grp _ a => reSize a + 1
  | .wordB => 1
  | .bos => 1
  | .eos => 1

def optIsWord : Option Char → Bool
  | none => false
  | some c => wordChar c

/-- Word-boundary test between the previous character and the rest. -/
def boundaryOk (prev : Option Char) (s : Chars) : Bool :=
  optIsWord prev != optIsWord s.head?

abbrev Caps := List (Nat × Chars)

def setCap (i : Nat) (v : Chars) (cs : Caps) : Caps := (i, v) :: cs

def getCap (i : Nat) (cs : Caps) : Option Chars :=
  (cs.find? (fun p => p.1 == i)).map (fun p => p.2)

/-- Backtracking matcher in continuation style. Alternatives are tried in
source order, the greedy star prefers longer matches and the lazy star
shorter ones, exactly the JS backtracking priority; the first success wins.
`prev` is the character before the current position (for `\b` and `^`).
The fuel only bounds recursion depth; `reFuel` below is a generous bound,
so the matcher is total and agrees with JS on the inputs in scope. -/
def reMatch (fuel : Nat) (r : RE) (prev : Option Char) (s : Chars) (cs : Caps)
    (k : Option Char → Chars → Caps → Option Caps) : Option Caps :=
  match fuel with
  | 0 => none
  | fuel + 1 =>
    match r with
    | .eps => k prev s cs
    | .cls f =>
      match s with
      | [] => none
      | c :: t => if f c then k (some c) t cs else none
    | .seq a b => reMatch fuel a prev s cs (fun p t cs2 => reMatch fuel b p t cs2 k)
    | .alt a b =>
      (reMatch fuel a prev s cs k).orElse (fun _ => reMatch fuel b prev s cs k)
    | .star g a =>
      let onIter := fun (_ : Unit) =>
        reMatch fuel a prev s cs (fun p t cs2 =>
          if t.length < s.length then reMatch fuel (RE.star g a) p t cs2 k else none)
      if g then (onIter ()).orElse (fun _ => k prev s cs)
      else (k prev s cs).orElse onIter
    | .grp i a =>
      reMatch fuel a prev s cs (fun p t cs2 =>
        k p t (setCap i (s.take (s.length - t.length)) cs2))
    | .wordB => if boundaryOk prev s then k prev s cs else none
    | .bos => if prev.isNone then k prev s cs else none
    | .eos => if s.isEmpty then k prev s cs else none

def reFuel (r : RE) (s : Chars) : Nat := (reSize r + 2) * (s.length + 2) * 2

/-- Try a match at the current position, else advance one character:
leftmost-match search, as JS `RegExp.prototype.test` / `String.match`. -/
def searchGo (r : RE) (prev : Option Char) (s : Chars) : Option Caps :=
  match reMatch (reFuel r s) r prev s [] (fun _ _ cs => some cs) with
  | some cs => some cs
  | none =>
    match s with
    | [] => none
    | c :: t => searchGo r (some c) t

/-- JS `re.test(s)`. -/
def reTest (r : RE) (s : String) : Bool := (searchGo r none s.data).isSome

/-- JS `s.match(re)` followed by reading capture group `i`. -/
def reCapture (r : RE) (s : String) (i : Nat) : Option String :=
  (searchGo r none s.data).bind (fun cs => (getCap i cs).map (fun l => String.mk l))

/-! ## Dates

Day ordinals (days since 1970-01-01) with the standard proleptic Gregorian
civil-calendar conversions, mirroring what the JS `Date` engine computes
for the date-only values this pipeline handles (UTC, no time of day). -/

/-- Civil (y, m, d) to day ordinal. -/
def daysFromCivil (y m d : Int) : Int :=
  let y2 : Int := if m ≤ 2 then y - 1 else y
  let era : Int := (if 0 ≤ y2 then y2 else y2 - 399) / 400
  let yoe : Int := y2 - era * 400
  let mp : Int := (m + 9) % 12
  let doy : Int := (153 * mp + 2) / 5 + d - 1
  let doe : Int := yoe * 365 + yoe / 4 - yoe / 100 + doy
  era * 146097 + doe - 719468

/-- Day ordinal to civil (y, m, d). -/
def civilFromDays (z0 : Int) : Int × Int × Int :=
  let z : Int := z0 + 719468
  let era : Int := (if 0 ≤ z then z else z - 146096) / 146097
  let doe : Int := z - era * 146097
  let yoe : Int := (doe - doe / 1460 + doe / 36524 - doe / 146096) / 365
  let y : Int := yoe + era * 400
  let doy : Int := doe - (365 * yoe + yoe / 4 - yoe / 100)
  let mp : Int := (5 * doy + 2) / 153
  let d : Int := doy - (153 * mp + 2) / 5 + 1
  let m : Int := if mp < 10 then mp + 3 else mp - 9
  (if m ≤ 2 then y + 1 else y, m, d)

/-- Two fixed-width decimal digits (digit characters for every input). -/
def pad2 (n : Nat) : Chars := [Nat.digitChar (n / 10 % 10), Nat.digitChar (n % 10)]

/-- Four fixed-width decimal digits (digit characters for every input). -/
def pad4 (n : Nat) : Chars :=
  [Nat.digitChar (n / 1000 % 10), Nat.digitChar (n / 100 % 10),
   Nat.digitChar (n / 10 % 10), Nat.digitChar (n % 10)]

/-- The `YYYY-MM-DD` rendering of a day ordinal: the model of
`date.toISOString().split('T')[0]` on the date values in scope. -/
def isoOfDay (z : Int) : String :=
  let c := civilFromDays z
  String.mk (pad4 c.1.toNat ++ '-' :: pad2 c.2.1.toNat ++ '-' :: pad2 c.2.2.toNat)

/-- Tokens of the legacy (non-ISO) date grammar. -/
inductive DTok where
  | num (v : Nat) (len : Nat)
  | word (w : Chars)
  | sym (c : Char)
deriving DecidableEq

/-- Tokenizer accumulator. -/
inductive DAcc where
  | idle
  | numAcc (v : Nat) (len : Nat)
  | wordAcc (w : Chars)

def dFlush : DAcc → List DTok
  | .idle => []
  | .numAcc v n => [.num v n]
  | .wordAcc w => [.word w.reverse]

/-- One-pass date-string tokenizer: maximal digit runs become numbers,
maximal letter runs become words, whitespace separates, anything else is a
symbol token. -/
def dTokGo : DAcc → Chars → List DTok
  | acc, [] => dFlush acc
  | acc, c :: rest =>
    if c.isDigit then
      match acc with
      | .numAcc v n => dTokGo (.numAcc (10 * v + (c.toNat - 48)) (n + 1)) rest
      | .idle => dTokGo (.numAcc (c.toNat - 48) 1) rest
      | .wordAcc w => dFlush (.wordAcc w) ++ dTokGo (.numAcc (c.toNat - 48) 1) rest
    else if c.isAlpha then
      match acc with
      | .wordAcc w => dTokGo (.wordAcc (c :: w)) rest
      | .idle => dTokGo (.wordAcc [c]) rest
      | .numAcc v n => dFlush (.numAcc v n) ++ dTokGo (.wordAcc [c]) rest
    else
      dFlush acc ++ (if c.isWhitespace then [] else [.sym c]) ++ dTokGo .idle rest

def dTokenize (l : Chars) : List DTok := dTokGo .idle l

/-- Month-name lookup: case-insensitive on the first three letters, as the
V8 legacy date parser keys its keyword table. -/
def monthOfWord (w : Chars) : Option Nat :=
  match jsToLowerList (w.take 3) with
  | ['j', 'a', 'n'] => some 1
  | ['f', 'e', 'b'] => some 2
  | ['m', 'a', 'r'] => some 3
  | ['a', 'p', 'r'] => some 4
  | ['m', 'a', 'y'] => some 5
  | ['j', 'u', 'n'] => some 6
  | ['j', 'u', 'l'] => some 7
  | ['a', 'u', 'g'] => some 8
  | ['s', 'e', 'p'] => some 9
  | ['o', 'c', 't'] => some 10
  | ['n', 'o', 'v'] => some 11
  | ['d', 'e', 'c'] => some 12
  | _ => none

/-- Scan the token list: collect at most three date numbers (a fourth makes
the string invalid), at most one named month, and accept only the delimiter
symbols of the legacy grammar. Mirrors the V8 day composer. -/
def dCollect : List DTok → Option (List Nat) → Option Nat → Option (List Nat × Option Nat)
  | [], nums, mo => nums.map (fun l => (l.reverse, mo))
  | .num v _ :: rest, some nums, mo =>
    if nums.length ≥ 3 then none else dCollect rest (some (v :: nums)) mo
  | .num _ _ :: _, none, _ => none
  | .word w :: rest, nums, mo =>
    match monthOfWord w, mo with
    | some m, none => dCollect rest nums (some m)
    | _, _ => none
  | .sym c :: rest, nums, mo =>
    if c == '-' || c == '/' || c == ',' || c == '.' then dCollect rest nums mo else none

/-- V8 year interpretation: two-digit years are windowed. -/
def dFixYear (y : Nat) : Nat := if y < 50 then 2000 + y else if y < 100 then 1900 + y else y

/-- Combine collected numbers and named month into a day ordinal, following
the V8 day composer (US month-day-year order when no number exceeds 31, a
leading number above 31 is the year, a missing year defaults to 2001, day
overflow normalizes arithmetically). Years above 9999 are out of the
model's scope and rejected. -/
def dCompose (nums : List Nat) (mo : Option Nat) : Option Int :=
  match mo with
  | some m =>
    match nums with
    | [a] =>
      if a ≥ 32 then if a > 9999 then none else some (daysFromCivil a m 1)
      else if a = 0 then none
      else some (daysFromCivil 2001 m 1 + (a - 1))
    | [a, b] =>
      if a ≥ 32 then
        if a > 9999 ∨ b = 0 ∨ b ≥ 32 then none
        else some (daysFromCivil a m 1 + (b - 1))
      else
        if a = 0 ∨ dFixYear b > 9999 then none
        else some (daysFromCivil (dFixYear b) m 1 + (a - 1))
    | _ => none
  | none =>
    match nums with
    | [a] => if 32 ≤ a ∧ a ≤ 9999 then some (daysFromCivil a 1 1) else none
    | [a, b] =>
      if 1 ≤ a ∧ a ≤ 12 ∧ 1 ≤ b ∧ b ≤ 31 then some (daysFromCivil 2001 a 1 + (b - 1))
      else none
    | [a, b, c] =>
      if a ≥ 32 then
        if a ≤ 9999 ∧ 1 ≤ b ∧ b ≤ 12 ∧ 1 ≤ c ∧ c ≤ 31 then
          some (daysFromCivil a b 1 + (c - 1))
        else none
      else
        if 1 ≤ a ∧ a ≤ 12 ∧ 1 ≤ b ∧ b ≤ 31 ∧ dFixYear c ≤ 9999 then
          some (daysFromCivil (dFixYear c) a 1 + (b - 1))
        else none
    | _ => none

/-- Strict `YYYY-MM-DD` ISO form (the date-only ECMA-262 format): exactly
ten characters, with range validation as modern engines apply it. The
outer `none` means the string is not ISO-shaped at all (the engine then
tries the legacy grammar); `some none` is an ISO-shaped string with
out-of-range fields, which is invalid outright. -/
def isoParse (l : Chars) : Option (Option Int) :=
  match l with
  | [y1, y2, y3, y4, h1, m1, m2, h2, d1, d2] =>
    if y1.isDigit && y2.isDigit && y3.isDigit && y4.isDigit && h1 == '-' &&
       m1.isDigit && m2.isDigit && h2 == '-' && d1.isDigit && d2.isDigit then
      let y := ((y1.toNat - 48) * 1000 + (y2.toNat - 48) * 100 + (y3.toNat - 48) * 10 + (y4.toNat - 48) : Nat)
      let m := ((m1.toNat - 48) * 10 + (m2.toNat - 48) : Nat)
      let d := ((d1.toNat - 48) * 10 + (d2.toNat - 48) : Nat)
      let dim := daysFromCivil y (m + 1) 1 - daysFromCivil y m 1
      if 1 ≤ m ∧ m ≤ 12 ∧ 1 ≤ d ∧ (d : Int) ≤ dim then some (some (daysFromCivil y m d))
      else some none
    else none
  | _ => none

/-- The model of `new Date(str)` for date-only strings (day granularity):
the strict ISO form first, then the legacy tokenized grammar. `none` is
`NaN` (an invalid date). -/
def jsNewDate (s : String) : Option Int :=
  match isoParse s.data with
  | some z => z
  | none =>
    match dCollect (dTokenize s.data) (some []) none with
    | some (nums, mo) => dCompose nums mo
    | none => none

/-- Is `d :: e` one of the ordinal suffixes `st`, `nd`, `rd`, `th`
(case-insensitive)? -/
def isOrdPair (d e : Char) : Bool :=
  (d.toLower == 's' && e.toLower == 't') || (d.toLower == 'n' && e.toLower == 'd') ||
  (d.toLower == 'r' && e.toLower == 'd') || (d.toLower == 't' && e.toLower == 'h')

/-- `str.replace(/([0-9]+)(st|nd|rd|th)/gi, '$1')`: drop an ordinal suffix
that immediately follows a digit, everywhere in the string. -/
def stripGo : Chars → Chars
  | [] => []
  | [c] => [c]
  | [c, d] => [c, d]
  | c :: d :: e :: rest =>
    if c.isDigit && isOrdPair d e then c :: stripGo rest
    else c :: stripGo (d :: e :: rest)

/-- `/\d{4}$/.test s`. -/
def endsWith4Digits (s : String) : Bool :=
  match s.data.reverse with
  | a :: b :: c :: d :: _ => a.isDigit && b.isDigit && c.isDigit && d.isDigit
  | _ => false

/-- The preprocessing of `formatDate` (openai.service.ts lines 261-267):
strip ordinal suffixes, trim, and append the current year when the string
does not already end in four digits. `today`'s year is rendered with
`pad4`, which agrees with the source's decimal interpolation for the years
in scope (1000-9999). -/
def preprocessDate (today : Int) (dateStr : String) : String :=
  let normalized := jsTrim (String.mk (stripGo dateStr.data))
  if endsWith4Digits normalized then normalized
  else normalized ++ " " ++ String.mk (pad4 (civilFromDays today).1.toNat)

/-- `formatDate` (openai.service.ts lines 255-297): convert a date string
to `YYYY-MM-DD`; an empty input, an unparseable input and a past date all
yield tomorrow (the two former via the catch block). -/
def formatDate (today : Int) (dateStr : String) : String :=
  if dateStr = "" then isoOfDay (today + 1)
  else
    match jsNewDate (preprocessDate today dateStr) with
    | none => isoOfDay (today + 1)
    | some z => if z < today then isoOfDay (today + 1) else isoOfDay z

/-- JS `parseFloat`: an optional sign, then a decimal number prefix
(exponents are outside this model's scope); `none` is `NaN`. The value
`i.f` is the rational `(i·10^k + f) / 10^k` (built with `mkRat` so that it
evaluates). -/
def jsParseFloat (s : String) : Option ℚ :=
  let l := jsTrimList s.data
  let (sign, l2) : Int × Chars :=
    match l with
    | '-' :: t => (-1, t)
    | '+' :: t => (1, t)
    | _ => (1, l)
  let intPart := l2.takeWhile Char.isDigit
  let rest := l2.dropWhile Char.isDigit
  let (fracPart, _) : Chars × Chars :=
    match rest with
    | '.' :: t => (t.takeWhile Char.isDigit, t.dropWhile Char.isDigit)
    | _ => ([], rest)
  if intPart.isEmpty && fracPart.isEmpty then none
  else
    let iv : Nat := intPart.foldl (fun a c => 10 * a + (c.toNat - 48)) 0
    let fv : Nat := fracPart.foldl (fun a c => 10 * a + (c.toNat - 48)) 0
    some (mkRat (sign * (iv * 10 ^ fracPart.length + fv)) (10 ^ fracPart.length))

/-- JS `<` on two possibly-invalid `Date` values: any comparison against
`NaN` is false. -/
def optLtOpt : Option Int → Option Int → Bool
  | some a, some b => decide (a < b)
  | _, _ => false

/-! ## Provider data model (the fields the pipeline reads) -/

/-- An Amadeus location result, as read by `getIATACode` and
`searchHotels` (other response fields are never read by the pipeline). -/
structure LocData where
  subType : String
  iataCode : String
  geoCode : Option (Int × Int)
deriving DecidableEq

/-- One end of a flight segment (`at_` models the source field `at`,
which is a keyword in Lean). -/
structure SegPoint where
  at_ : String
  iataCode : String
deriving DecidableEq

/-- A flight segment, with the optional fields `formatFlightResponse`
reads defensively. -/
structure FlightSegment where
  dep : SegPoint
  arr : SegPoint
  carrierCode : Option String
  number : Option String
  cabin : Option String
  fareCabin : Option String
deriving DecidableEq

structure FlightItin where
  segments : List FlightSegment
  duration : Option String
deriving DecidableEq

structure OfferPrice where
  total : String
  grandTotal : Option String
  currency : String
deriving DecidableEq

structure FlightOffer where
  itineraries : List FlightItin
  price : OfferPrice
deriving DecidableEq

/-- A description value that is either a plain string or an object with an
optional `text` field (both shapes occur in hotel offers). -/
inductive DescVal where
  | str (s : String)
  | obj (text : Option String)
deriving DecidableEq

structure HotelRoomOffer where
  priceCurrency : String
  priceTotal : String
  roomDescription : Option DescVal
  cancellationDescription : Option DescVal
deriving DecidableEq

structure HotelInfo where
  name : Option String
  rating : Option String
  cityName : Option String
  amenities : Option (List String)
deriving DecidableEq

structure HotelOffer where
  hotel : Option HotelInfo
  offers : Option (List HotelRoomOffer)
deriving DecidableEq

structure HotelRef where
  hotelId : String
deriving DecidableEq

structure BookingResponse where
  orderId : String
  pnrRef : Option String
deriving DecidableEq

/-- The pricing response body (`response.data` of
`shopping.flightOffers.pricing`). -/
structure ConfirmResponse where
  flightOffers : List FlightOffer
deriving DecidableEq

/-- A provider API failure, as the service layer inspects it:
`error.response.statusCode`, `error.response.body.errors[0].code/.title/.detail`,
the stringified body, and `error.message`. -/
structure ApiErr where
  status : Option Nat
  code : Option Nat
  title : Option String
  detail : Option String
  body : String
  message : String
deriving DecidableEq

/-- A hotel-offers search request: by hotel ids, or by coordinates. -/
inductive HotelSearchQuery where
  | byIds (ids : List String) (checkIn checkOut : String) (adults : Nat)
  | byGeo (lat lng : Int) (checkIn checkOut : String) (adults : Nat)
deriving DecidableEq

/-- The network requests an adapter operation can attempt. -/
inductive ApiCall where
  | locations (keyword subType : String)
  | flightSearch (origin dest dep : String) (ret : Option String) (adults : Nat) (cabin : String)
  | pricing (offers : List FlightOffer)
  | flightOrder (offer : FlightOffer)
  | hotelsByCity (cityCode : String)
  | hotelOffers (q : HotelSearchQuery)
  | poi (lat lng : Int) (radius : Nat)
deriving DecidableEq

/-- The process environment: the two client-initialization states, the
clock, the network oracles (one per provider endpoint), the LLM oracle
(`none` models a throw or an empty completion), and the host locale
renderers used only for display strings. -/
structure Env where
  amadeusInit : Bool
  openaiKey : Bool
  today : Int
  locationsApi : String → String → Except ApiErr (List LocData)
  flightSearchApi : String → String → String → Option String → Nat → String → Except ApiErr (List FlightOffer)
  pricingApi : List FlightOffer → Except ApiErr ConfirmResponse
  bookingApi : FlightOffer → Except ApiErr BookingResponse
  hotelsByCityApi : String → Except ApiErr (List HotelRef)
  hotelOffersApi : HotelSearchQuery → Except ApiErr (List HotelOffer)
  poiApi : Int → Int → Nat → Except ApiErr (List String)
  llmReply : Option String
  renderLocal : String → String
  renderDate : String → String
  msOf : String → Int

/-- An adapter operation's outcome: the API calls it attempted, in order,
and its result (`Except.error` models a thrown `Error` by its message). -/
structure SvcOut (α : Type) where
  calls : List ApiCall
  result : Except String α

/-- The message of the error thrown by `checkInitialization`
(amadeus.service.ts lines 98-102). -/
def notInitMsg : String :=
  "Amadeus client is not initialized. Please check your credentials in the .env file."

/-- Error mapping of `searchFlights` (amadeus.service.ts lines 168-179). -/
def mapFlightSearchErr (e : ApiErr) : String :=
  if e.status == some 400 then "Bad request: " ++ e.body
  else if e.status == some 401 then "Authentication failed. Please check your Amadeus API credentials."
  else if e.status == some 404 then "No flights found for the given criteria."
  else e.message

/-- `searchFlights` (amadeus.service.ts lines 115-181): initialization
check, then the date-normalization policy (a past departure becomes
tomorrow; a return date before the *originally parsed* departure becomes
that departure plus 7 days), then the GET request with upper-cased codes. -/
def svcSearchFlights (env : Env) (originCode destinationCode departDate : String)
    (returnDate : Option String) (adults : Nat) (cabin : String) :
    SvcOut (List FlightOffer) :=
  if !env.amadeusInit then ⟨[], .error notInitMsg⟩
  else
    let depParsed := jsNewDate departDate
    let dep2 := if optLtOpt depParsed (some env.today) then isoOfDay (env.today + 1) else departDate
    let ret2 : Option String :=
      match returnDate with
      | none => none
      | some r =>
        match depParsed with
        | some dz => if optLtOpt (jsNewDate r) (some dz) then some (isoOfDay (dz + 7)) else some r
        | none => some r
    let og := jsToUpper originCode
    let dg := jsToUpper destinationCode
    ⟨[ApiCall.flightSearch og dg dep2 ret2 adults cabin],
     match env.flightSearchApi og dg dep2 ret2 adults cabin with
     | .ok data => .ok data
     | .error e => .error (mapFlightSearchErr e)⟩

/-- `lookupCity` (amadeus.service.ts lines 806-823): initialization check,
then the locations request; a failure is rethrown unchanged. -/
def svcLookupCity (env : Env) (keyword : String) (subType : String) : SvcOut (List LocData) :=
  if !env.amadeusInit then ⟨[], .error notInitMsg⟩
  else
    match env.locationsApi keyword subType with
    | .ok data => ⟨[ApiCall.locations keyword subType], .ok data⟩
    | .error e => ⟨[ApiCall.locations keyword subType], .error e.message⟩

/-- `searchPointsOfInterest` (amadeus.service.ts lines 774-797). -/
def svcSearchPointsOfInterest (env : Env) (lat lng : Int) (radius : Nat := 2) :
    SvcOut (List String) :=
  if !env.amadeusInit then ⟨[], .error notInitMsg⟩
  else
    match env.poiApi lat lng radius with
    | .ok data => ⟨[ApiCall.poi lat lng radius], .ok data⟩
    | .error e => ⟨[ApiCall.poi lat lng radius], .error e.message⟩

/-- `confirmFlightPrice` (amadeus.service.ts lines 281-341): initialization
check, then the pricing POST; a 400 with error code 37200 becomes the
distinguished price-changed error. -/
def svcConfirmFlightPrice (env : Env) (flightOffers : List FlightOffer) :
    SvcOut ConfirmResponse :=
  if !env.amadeusInit then ⟨[], .error notInitMsg⟩
  else
    match env.pricingApi flightOffers with
    | .ok data => ⟨[ApiCall.pricing flightOffers], .ok data⟩
    | .error e =>
      let msg :=
        if e.status == some 400 && e.code == some 37200 then
          "Price has changed. " ++ e.detail.getD ""
        else e.message
      ⟨[ApiCall.pricing flightOffers], .error msg⟩

/-- `createFlightBooking` (amadeus.service.ts lines 353-464): initialization
check, then the flight-order POST, with the source's 400-error taxonomy. -/
def svcCreateFlightBooking (env : Env) (confirmedOffer : FlightOffer) :
    SvcOut BookingResponse :=
  if !env.amadeusInit then ⟨[], .error notInitMsg⟩
  else
    match env.bookingApi confirmedOffer with
    | .ok data => ⟨[ApiCall.flightOrder confirmedOffer], .ok data⟩
    | .error e =>
      let msg :=
        if e.status == some 400 then
          if e.code == some 37200 then "Price has changed since confirmation. Please search again."
          else if e.code == some 1398 then "Invalid passenger information. Please check all details."
          else if e.title == some "INVALID FORMAT" then
            "Payment cannot be processed in self-service mode. Work with an airline consolidator."
          else "Booking failed: " ++ e.body
        else e.message
      ⟨[ApiCall.flightOrder confirmedOffer], .error msg⟩

/-- `getHotelList` (amadeus.service.ts lines 531-560). -/
def svcGetHotelList (env : Env) (cityCode : String) : SvcOut (List HotelRef) :=
  if !env.amadeusInit then ⟨[], .error notInitMsg⟩
  else
    match env.hotelsByCityApi (jsToUpper cityCode) with
    | .ok data => ⟨[ApiCall.hotelsByCity (jsToUpper cityCode)], .ok data⟩
    | .error e =>
      let msg :=
        if e.status == some 404 then "No hotels found for city code: " ++ cityCode
        else "Failed to get hotel list: " ++ (if e.message = "" then "Unknown error" else e.message)
      ⟨[ApiCall.hotelsByCity (jsToUpper cityCode)], .error msg⟩

/-- `searchHotels` (amadeus.service.ts lines 572-665): initialization
check; hotel list by city (failure tolerated); offers by hotel ids (first
20); on failure, the coordinate fallback through `lookupCity`; otherwise
the distinguished unable-to-find error, with the outer catch re-wrapping
any other failure. -/
def svcSearchHotels (env : Env) (cityCode checkInDate checkOutDate : String)
    (adults : Nat) : SvcOut (List HotelOffer) :=
  if !env.amadeusInit then ⟨[], .error notInitMsg⟩
  else
    let listOut := svcGetHotelList env cityCode
    let hotelIds : List String :=
      match listOut.result with
      | .ok hotelList => (hotelList.take 20).map (fun h => h.hotelId)
      | .error _ => []
    let idsAttempt : Option (List ApiCall × Option (List HotelOffer)) :=
      if hotelIds.length > 0 then
        let q := HotelSearchQuery.byIds hotelIds checkInDate checkOutDate adults
        match env.hotelOffersApi q with
        | .ok data => some ([ApiCall.hotelOffers q], some data)
        | .error _ => some ([ApiCall.hotelOffers q], none)
      else none
    let callsSoFar := listOut.calls ++ (idsAttempt.map Prod.fst).getD []
    match idsAttempt with
    | some (_, some data) => ⟨callsSoFar, .ok data⟩
    | _ =>
      let lookupOut := svcLookupCity env cityCode "CITY"
      let calls2 := callsSoFar ++ lookupOut.calls
      let geoAttempt : Option (List ApiCall × Option (List HotelOffer)) :=
        match lookupOut.result with
        | .ok cityDetails =>
          match cityDetails.head? with
          | some loc =>
            match loc.geoCode with
            | some (lat, lng) =>
              let q := HotelSearchQuery.byGeo lat lng checkInDate checkOutDate adults
              match env.hotelOffersApi q with
              | .ok data => some ([ApiCall.hotelOffers q], some data)
              | .error _ => some ([ApiCall.hotelOffers q], none)
            | none => none
          | none => none
        | .error _ => none
      let calls3 := calls2 ++ (geoAttempt.map Prod.fst).getD []
      match geoAttempt with
      | some (_, some data) => ⟨calls3, .ok data⟩
      | _ =>
        ⟨calls3, .error ("Unable to find hotels in " ++ cityCode ++
          ". Try a different city or check the city code.")⟩

/-! ## Booking controller (booking.controller.ts) -/

/-- Rational subtraction through `mkRat` (equal to `a - b`, see
`ratSub_eq`; spelled this way so that it evaluates). -/
def ratSub (a b : ℚ) : ℚ := mkRat (a.num * b.den - b.num * a.den) (a.den * b.den)

/-- Rational absolute value by sign inspection (equal to `|a|`, see
`ratAbs_eq`). -/
def ratAbs (a : ℚ) : ℚ := if a.num < 0 then mkRat (-a.num) a.den else a

/-- JS `Math.abs(a - b) > 0.01` on `parseFloat` results: false whenever
either operand is `NaN`. -/
def absDiffGtTol : Option ℚ → Option ℚ → Bool
  | some a, some b => Rat.blt (mkRat 1 100) (ratAbs (ratSub a b))
  | _, _ => false

/-- The HTTP outcome of `bookingController.createBooking`. -/
inductive BookingHttp where
  | noOffer
  | confirmFailed
  | priceChanged (originalPrice newPrice : Option ℚ)
  | created (b : BookingResponse)
  | priceChangedErr (msg : String)
  | paymentNotAllowed
  | bookingFailed (msg : String)
deriving DecidableEq

/-- The observable outcome of a `createBooking` request: the response, the
attempted provider calls, and whether `createFlightBooking` was invoked. -/
structure BookingFlowOut where
  response : BookingHttp
  bookingAttempted : Bool
  calls : List ApiCall

/-- `bookingController.createBooking` (booking.controller.ts lines 8-107):
require a selected offer, confirm its price, reject with the 409
price-changed outcome when the confirmed total differs from the quoted
total by more than 0.01, and only otherwise create the booking. The catch
block's error taxonomy (price-changed, self-service payment, other) is the
source's. -/
def bookingCreateBooking (env : Env) (selectedOffer : Option FlightOffer) : BookingFlowOut :=
  match selectedOffer with
  | none => ⟨.noOffer, false, []⟩
  | some sel =>
    let conf := svcConfirmFlightPrice env [sel]
    match conf.result with
    | .error e =>
      if jsIncludes e "Price has changed" then ⟨.priceChangedErr e, false, conf.calls⟩
      else if jsIncludes e "self-service mode" then ⟨.paymentNotAllowed, false, conf.calls⟩
      else ⟨.bookingFailed e, false, conf.calls⟩
    | .ok pc =>
      match pc.flightOffers.head? with
      | none => ⟨.confirmFailed, false, conf.calls⟩
      | some confirmedOffer =>
        let originalPrice := jsParseFloat sel.price.total
        let confirmedPrice := jsParseFloat confirmedOffer.price.total
        if absDiffGtTol originalPrice confirmedPrice then
          ⟨.priceChanged originalPrice confirmedPrice, false, conf.calls⟩
        else
          let bk := svcCreateFlightBooking env confirmedOffer
          match bk.result with
          | .ok b => ⟨.created b, true, conf.calls ++ bk.calls⟩
          | .error e =>
            if jsIncludes e "Price has changed" then
              ⟨.priceChangedErr e, true, conf.calls ++ bk.calls⟩
            else if jsIncludes e "self-service mode" then
              ⟨.paymentNotAllowed, true, conf.calls ++ bk.calls⟩
            else ⟨.bookingFailed e, true, conf.calls ++ bk.calls⟩

/-! ## Intent classifier (openai.service.ts lines 62-170) -/

def wsPlus : RE := plusRE wsRE

/-- `(?:a\s+)?`. -/
def optArticle : RE := optRE (catRE [litRE "a", wsPlus])

/-- `[\w\s]`. -/
def wordSpRE : RE := RE.cls (fun c => wordChar c || spaceChar c)

/-- The greeting/welcome patterns (lines 71-75). -/
def greetingPatterns : List RE :=
  [catRE [RE.bos, litRE "hi", RE.eos],
   catRE [RE.bos, litRE "hello", RE.eos],
   catRE [RE.bos, litRE "hey", RE.eos],
   catRE [RE.bos, litRE "greetings", RE.eos],
   catRE [RE.bos, litRE "what can you do"],
   catRE [RE.bos, litRE "help me"],
   catRE [RE.bos, litRE "how does this work"],
   catRE [RE.bos, litRE "what is this"],
   catRE [RE.bos, litRE "tell me about yourself"]]

/-- The flight patterns (lines 85-91). -/
def flightPatterns : List RE :=
  [catRE [RE.wordB, altListRE [litRE "find", litRE "search", litRE "looking for", litRE "need"],
          wsPlus, optArticle, litRE "flight", optRE (litRE "s"), RE.wordB],
   catRE [RE.wordB, altListRE [litRE "book", litRE "get"],
          wsPlus, optArticle, litRE "flight", optRE (litRE "s"), RE.wordB],
   catRE [RE.wordB, litRE "fly", optRE (litRE "ing"), wsPlus, litRE "from", wsPlus,
          RE.grp 1 (plusRE wordSpRE), wsPlus, litRE "to", wsPlus,
          RE.grp 2 (plusRE wordSpRE), RE.wordB],
   catRE [RE.wordB, litRE "flight", optRE (litRE "s"), wsPlus,
          altListRE [litRE "from", litRE "between"], wsPlus,
          RE.grp 1 (plusRE wordSpRE), wsPlus, altListRE [litRE "to", litRE "and"], wsPlus,
          RE.grp 2 (plusRE wordSpRE), RE.wordB],
   catRE [RE.wordB, litRE "air", altListRE [litRE "plane", litRE "port", litRE "line"], wsPlus,
          altListRE [catRE [litRE "ticket", optRE (litRE "s")],
                     catRE [litRE "flight", optRE (litRE "s")]], RE.wordB]]

/-- The hotel patterns (lines 106-111). -/
def hotelPatterns : List RE :=
  [catRE [RE.wordB, altListRE [litRE "find", litRE "search", litRE "looking for", litRE "need"],
          wsPlus, optArticle, litRE "hotel", optRE (litRE "s"), RE.wordB],
   catRE [RE.wordB, altListRE [litRE "book", litRE "get"],
          wsPlus, optArticle, litRE "hotel", optRE (litRE "s"), RE.wordB],
   catRE [RE.wordB, altListRE [litRE "stay", litRE "accommodation", litRE "room"],
          wsPlus, litRE "in", wsPlus, RE.grp 1 (plusRE wordSpRE), RE.wordB],
   catRE [RE.wordB, litRE "hotel", optRE (litRE "s"), wsPlus,
          altListRE [litRE "in", litRE "near", litRE "at"], wsPlus,
          RE.grp 1 (plusRE wordSpRE), RE.wordB]]

/-- The booking patterns (lines 126-130). -/
def bookingPatterns : List RE :=
  [catRE [RE.wordB, altListRE [litRE "book", litRE "reserve", litRE "purchase"],
          wsPlus, optArticle,
          altListRE [catRE [litRE "ticket", optRE (litRE "s")],
                     catRE [litRE "seat", optRE (litRE "s")],
                     catRE [litRE "flight", optRE (litRE "s")]], RE.wordB],
   catRE [RE.wordB, litRE "make", wsPlus, optArticle,
          altListRE [litRE "reservation", litRE "booking"], RE.wordB],
   catRE [RE.wordB, litRE "buy", wsPlus, optArticle,
          altListRE [catRE [litRE "ticket", optRE (litRE "s")],
                     catRE [litRE "seat", optRE (litRE "s")]], RE.wordB]]

inductive IntentType where
  | flight
  | hotel
  | pointOfInterest
  | itinerary
  | general
  | booking
deriving DecidableEq

structure TravelIntent where
  intentType : IntentType
  confidence : ℚ
  searchText : String
  requiresAmadeusApi : Bool
deriving DecidableEq

/-- `detectTravelIntent` (openai.service.ts lines 62-170): null for
empty/whitespace or greeting input, then the ordered cascade — flight
patterns, hotel patterns, booking patterns, loose flight fallback, loose
hotel fallback — with the source's fixed confidence constants. -/
def detectTravelIntent (userMessage : String) : Option TravelIntent :=
  if jsTrim userMessage = "" then none
  else
    let lowerMsg := jsToLower userMessage
    if greetingPatterns.any (fun p => reTest p lowerMsg) then none
    else if flightPatterns.any (fun p => reTest p lowerMsg) then
      some ⟨.flight, mkRat 9 10, userMessage, true⟩
    else if hotelPatterns.any (fun p => reTest p lowerMsg) then
      some ⟨.hotel, mkRat 8 10, userMessage, true⟩
    else if bookingPatterns.any (fun p => reTest p lowerMsg) then
      some ⟨.booking, mkRat 95 100, userMessage, true⟩
    else if jsIncludes lowerMsg "flight" &&
            (jsIncludes lowerMsg "from" || jsIncludes lowerMsg "to") then
      some ⟨.flight, mkRat 7 10, userMessage, true⟩
    else if jsIncludes lowerMsg "hotel" &&
            (jsIncludes lowerMsg "in" || jsIncludes lowerMsg "at" || jsIncludes lowerMsg "near") then
      some ⟨.hotel, mkRat 7 10, userMessage, true⟩
    else none

/-! ## Conversation messages -/

inductive Role where
  | user
  | assistant
  | system
deriving DecidableEq

structure Msg where
  role : Role
  content : String
deriving DecidableEq

/-- `[...messages].reverse().find(msg => msg.role === 'user')`. -/
def findLastUser (messages : List Msg) : Option Msg :=
  messages.reverse.find? (fun m => m.role == Role.user)

/-- JS truthiness of an optional string (`undefined` and `''` are falsy). -/
def optTruthy : Option String → Bool
  | none => false
  | some s => s ≠ ""

/-! ## Location resolution (openai.service.ts lines 310-449) -/

/-- The static city → IATA table of `getFallbackAirportCode`
(lines 312-341), in insertion order. -/
def airportCodes : List (String × String) :=
  [("london", "LHR"), ("new york", "JFK"), ("paris", "CDG"), ("tokyo", "HND"),
   ("sydney", "SYD"), ("dubai", "DXB"), ("madrid", "MAD"), ("berlin", "BER"),
   ("singapore", "SIN"), ("los angeles", "LAX"), ("san francisco", "SFO"),
   ("miami", "MIA"), ("chicago", "ORD"), ("toronto", "YYZ"), ("vancouver", "YVR"),
   ("rome", "FCO"), ("barcelona", "BCN"), ("amsterdam", "AMS"), ("frankfurt", "FRA"),
   ("munich", "MUC"), ("manchester", "MAN"), ("edinburgh", "EDI"), ("glasgow", "GLA"),
   ("delhi", "DEL"), ("mumbai", "BOM"), ("beijing", "PEK"), ("shanghai", "PVG"),
   ("san ramon", "OAK")]

/-- `getFallbackAirportCode` (lines 310-364): exact table match, then the
first substring match in either direction, else the upper-cased first
three alphanumeric characters of the name (no padding: the synthesized
code is shorter than 3 when the sanitized name is). -/
def getFallbackAirportCode (location : String) : String :=
  let locationLower := jsToLower location
  match airportCodes.find? (fun e => e.1 == locationLower) with
  | some e => e.2
  | none =>
    match airportCodes.find? (fun e =>
        jsIncludes locationLower e.1 || jsIncludes e.1 locationLower) with
    | some e => e.2
    | none =>
      let sanitized := location.data.filter Char.isAlphanum
      String.mk (jsToUpperList (sanitized.take 3))

/-- The country → representative-city table of `getIATACode`
(lines 378-397). -/
def countryToCity : List (String × String) :=
  [("uk", "London"), ("usa", "New York"), ("us", "New York"), ("uae", "Dubai"),
   ("england", "London"), ("britain", "London"), ("great britain", "London"),
   ("united kingdom", "London"), ("united states", "New York"),
   ("australia", "Sydney"), ("canada", "Toronto"), ("china", "Beijing"),
   ("india", "Delhi"), ("japan", "Tokyo"), ("france", "Paris"),
   ("germany", "Berlin"), ("spain", "Madrid"), ("italy", "Rome")]

/-- The falsy-chain `cityLocation?.iataCode || airportLocation?.iataCode ||
locationData[0].iataCode` followed by the `length === 3` validation
(lines 417-431): `some` only when a three-character code was accepted. -/
def pickIataCode (locationData : List LocData) : Option String :=
  if locationData.isEmpty then none
  else
    let c1 := ((locationData.find? (fun l => l.subType == "CITY")).map LocData.iataCode).getD ""
    let c2 := ((locationData.find? (fun l => l.subType == "AIRPORT")).map LocData.iataCode).getD ""
    let c0 := ((locationData.head?).map LocData.iataCode).getD ""
    let iata := if c1 ≠ "" then c1 else if c2 ≠ "" then c2 else c0
    if iata ≠ "" && iata.length == 3 then some iata else none

/-- `getIATACode` (lines 372-449): reject empty input, map country names to
their representative city, use the provider lookup when the client is
initialized (accepting only a 3-character code), and otherwise — including
on lookup failure or validation failure — fall back to
`getFallbackAirportCode`. (The padded synthesis after the fallback return,
source lines 440-448, is unreachable code.) -/
def getIATACode (env : Env) (location : String) : Except String String :=
  if jsTrim location = "" then .error "Invalid location: Location name is required"
  else
    let normalizedLocation := jsToLower (jsTrim location)
    let location2 :=
      match countryToCity.find? (fun e => e.1 == normalizedLocation) with
      | some e => e.2
      | none => location
    if !env.amadeusInit then .ok (getFallbackAirportCode location2)
    else
      match (svcLookupCity env location2 "CITY,AIRPORT").result with
      | .ok locationData =>
        match pickIataCode locationData with
        | some iata => .ok iata
        | none => .ok (getFallbackAirportCode location2)
      | .error _ => .ok (getFallbackAirportCode location2)

/-! ## Flight parameter extraction (openai.service.ts lines 177-248) -/

/-- `[A-Za-z\s]`. -/
def alphaSpRE : RE := RE.cls (fun c => c.isAlpha || spaceChar c)

/-- `[A-Za-z]`. -/
def alphaRE : RE := RE.cls Char.isAlpha

/-- `\d`. -/
def digitRE : RE := RE.cls Char.isDigit

/-- The two origin/destination patterns (lines 189-192). -/
def locationPatterns : List RE :=
  [catRE [altListRE [litRE "from", litRE "between"], wsPlus,
          RE.grp 1 (plusRE alphaSpRE), wsPlus, litRE "to", wsPlus,
          RE.grp 2 (plusRE alphaSpRE)],
   catRE [RE.grp 1 (plusRE alphaSpRE), wsPlus, litRE "to", wsPlus,
          RE.grp 2 (plusRE alphaSpRE)]]

/-- The country-abbreviation table of `extractFlightParams`
(lines 204-215). -/
def countryAbbreviations : List (String × String) :=
  [("uk", "London"), ("usa", "New York"), ("us", "New York"), ("uae", "Dubai"),
   ("england", "London"), ("australia", "Sydney"), ("canada", "Toronto"),
   ("china", "Beijing"), ("india", "Delhi"), ("japan", "Tokyo")]

/-- `\d{1,2}(?:st|nd|rd|th)?(?:\s+\d{4})?` (the tail shared by the date
patterns). -/
def dayOrdYearRE : RE :=
  catRE [digitRE, optRE digitRE,
         optRE (altListRE [litRE "st", litRE "nd", litRE "rd", litRE "th"]),
         optRE (catRE [wsPlus, digitRE, digitRE, digitRE, digitRE])]

/-- The three date patterns (lines 233-237). -/
def datePatterns : List RE :=
  [catRE [altListRE [litRE "on", litRE "for"], wsPlus,
          RE.grp 1 (catRE [plusRE alphaRE, wsPlus, dayOrdYearRE])],
   catRE [RE.grp 1 (catRE [digitRE, optRE digitRE,
          optRE (altListRE [litRE "st", litRE "nd", litRE "rd", litRE "th"]),
          wsPlus, plusRE alphaRE,
          optRE (catRE [wsPlus, digitRE, digitRE, digitRE, digitRE])])],
   catRE [RE.grp 1 (catRE [plusRE alphaRE, wsPlus, dayOrdYearRE])]]

structure FlightParams where
  origin : Option String
  destination : Option String
  departDate : Option String
deriving DecidableEq

/-- One table replacement of a country reference (lines 218-230). -/
def replaceCountry (v : Option String) : Option String :=
  v.map (fun s =>
    match countryAbbreviations.find? (fun e => e.1 == jsToLower s) with
    | some e => e.2
    | none => s)

/-- `extractFlightParams` (lines 177-248): first matching location pattern
fills origin and destination (trimmed), country references are replaced by
representative cities, and the first matching date pattern fills the
departure date (trimmed). -/
def extractFlightParams (message : String) : FlightParams :=
  let loc := locationPatterns.findSome? (fun p =>
    (reCapture p message 1).bind (fun o =>
      (reCapture p message 2).map (fun d => (jsTrim o, jsTrim d))))
  let origin := replaceCountry (loc.map Prod.fst)
  let destination := replaceCountry (loc.map Prod.snd)
  let departDate := (datePatterns.findSome? (fun p => reCapture p message 1)).map jsTrim
  ⟨origin, destination, departDate⟩

/-! ## Response formatting (openai.service.ts lines 459-556 and 868-923) -/

/-- `calculateTotalJourneyTime` (amadeus.service.ts lines 511-522):
arrival minus departure across the whole itinerary, rendered as hours and
minutes (`env.msOf` models `new Date(...).getTime()` on the segment
timestamps). -/
def calculateTotalJourneyTime (env : Env) (segments : List FlightSegment) : String :=
  match segments.head?, segments.getLast? with
  | some s0, some sl =>
    let diffMs := env.msOf sl.arr.at_ - env.msOf s0.dep.at_
    let hours := diffMs / 3600000
    let minutes := (diffMs % 3600000) / 60000
    toString hours ++ "h " ++ toString minutes ++ "m"
  | _, _ => ""

/-- One option block of `formatFlightResponse` (lines 495-547): `none`
models the `continue` taken when the offer has no itinerary or its segment
access throws (an empty segment list). The `amadeusService &&
calculateTotalJourneyTime` guard of line 510 is always true, so the
duration always comes from `calculateTotalJourneyTime`. -/
def fmtFlightBlock (env : Env) (i : Nat) (offer : FlightOffer) : Option String :=
  match offer.itineraries.head? with
  | none => none
  | some itin =>
    match itin.segments.head?, itin.segments.getLast? with
    | some firstSegment, some lastSegment =>
      let stops :=
        if itin.segments.length > 1 then
          "✈️ Stops: " ++ toString (itin.segments.length - 1) ++ " (" ++
            String.intercalate ", " ((itin.segments.map (fun seg => seg.arr.iataCode)).dropLast) ++ ")\n"
        else "✈️ Direct Flight\n"
      let flightNum :=
        if optTruthy firstSegment.carrierCode && optTruthy firstSegment.number then
          "🔢 Flight: " ++ (firstSegment.carrierCode.getD "") ++ (firstSegment.number.getD "") ++ "\n"
        else ""
      let priceValue :=
        if optTruthy offer.price.grandTotal then offer.price.grandTotal.getD ""
        else offer.price.total
      let cabinClass :=
        if optTruthy firstSegment.cabin then firstSegment.cabin.getD ""
        else if optTruthy firstSegment.fareCabin then firstSegment.fareCabin.getD ""
        else "Economy"
      some ("**Option " ++ toString (i + 1) ++ "**\n" ++
        "🛫 Departure: " ++ env.renderLocal firstSegment.dep.at_ ++ " from " ++
          firstSegment.dep.iataCode ++ "\n" ++
        "🛬 Arrival: " ++ env.renderLocal lastSegment.arr.at_ ++ " at " ++
          lastSegment.arr.iataCode ++ "\n" ++
        "⏱️ Duration: " ++ calculateTotalJourneyTime env itin.segments ++ "\n" ++
        stops ++ flightNum ++
        "💰 Price: " ++ offer.price.currency ++ " " ++ priceValue ++ "\n" ++
        "🪑 Cabin: " ++ cabinClass ++ "\n" ++ "\n")
    | _, _ => none

/-- The shown option blocks: the loop over `i < min 5 length` with its
continue-on-error policy. -/
def flightBlocks (env : Env) (flightOffers : List FlightOffer) : List String :=
  (List.range (min 5 flightOffers.length)).filterMap (fun i =>
    (flightOffers.get? i).bind (fmtFlightBlock env i))

/-- `formatFlightResponse` (lines 459-556). -/
def formatFlightResponse (env : Env) (flightOffers : List FlightOffer)
    (origin destination date : String) : String :=
  if flightOffers.isEmpty then
    "I couldn't find any flights from " ++ origin ++ " to " ++ destination ++ " on " ++
      date ++ ". Would you like to try different dates or locations?"
  else
    let maxFlights := min 5 flightOffers.length
    "I found " ++ toString flightOffers.length ++ " flight option" ++
      (if flightOffers.length > 1 then "s" else "") ++ " from " ++ origin ++ " to " ++
      destination ++ " on " ++ date ++ ":\n\n" ++
    String.join (flightBlocks env flightOffers) ++
    (if flightOffers.length > maxFlights then
      "... and " ++ toString (flightOffers.length - maxFlights) ++ " more options available.\n\n"
     else "") ++
    "Would you like to book any of these flights or see more options?"

/-- The truthiness of a description value (`if (offer.room?.description)`;
an object is truthy whatever its `text`, an empty string is falsy). -/
def descTruthy : Option DescVal → Bool
  | none => false
  | some (.obj _) => true
  | some (.str s) => s ≠ ""

/-- The string-or-object description reading (lines 894-898 and 904-909). -/
def descText (d : Option DescVal) (dflt : String) : String :=
  match d with
  | some (.obj (some t)) => if t ≠ "" then t else dflt
  | some (.obj none) => dflt
  | some (.str s) => s
  | none => dflt

/-- One hotel block of the inline hotel formatting (lines 876-920). -/
def fmtHotelBlock (i : Nat) (hotel : HotelOffer) : String :=
  let nameLine := "**" ++ toString (i + 1) ++ ". " ++
    (if optTruthy (hotel.hotel.bind HotelInfo.name) then (hotel.hotel.bind HotelInfo.name).getD ""
     else "Hotel") ++ "**\n"
  let ratingLine :=
    if optTruthy (hotel.hotel.bind HotelInfo.rating) then
      "⭐ Rating: " ++ (hotel.hotel.bind HotelInfo.rating).getD "" ++ "/5\n"
    else ""
  let locationLine :=
    if optTruthy (hotel.hotel.bind HotelInfo.cityName) then
      "📍 Location: " ++ (hotel.hotel.bind HotelInfo.cityName).getD "" ++ "\n"
    else ""
  let offerLines :=
    match (hotel.offers.getD []).head? with
    | none => ""
    | some offer =>
      "💰 Price: " ++ offer.priceCurrency ++ " " ++ offer.priceTotal ++ "\n" ++
      (if descTruthy offer.roomDescription then
        "🛏️ Room: " ++ descText offer.roomDescription "Standard Room" ++ "\n"
       else "") ++
      (if descTruthy offer.cancellationDescription then
        "ℹ️ " ++ descText offer.cancellationDescription "See hotel for cancellation policy" ++ "\n"
       else "")
  let amenitiesLine :=
    match hotel.hotel.bind HotelInfo.amenities with
    | some amenities =>
      if amenities.length > 0 then
        "🏨 Amenities: " ++ String.intercalate ", " (amenities.take 3) ++ "\n"
      else ""
    | none => ""
  nameLine ++ ratingLine ++ locationLine ++ offerLines ++ amenitiesLine ++ "\n"

/-- The shown hotel blocks: the loop over `i < min 3 length`. -/
def hotelBlocks (hotelOffers : List HotelOffer) : List String :=
  (List.range (min 3 hotelOffers.length)).filterMap (fun i =>
    (hotelOffers.get? i).map (fmtHotelBlock i))

/-- The non-empty-result hotel reply assembled inline in
`handleHotelIntent` (lines 868-923): header, at most three blocks, and the
fixed closing question — no remaining-count note. -/
def formatHotelResponse (env : Env) (hotelOffers : List HotelOffer) (city : String)
    (checkInStr checkOutStr : String) (adults : Nat) : String :=
  "I found " ++ toString hotelOffers.length ++ " hotels in " ++ city ++ ":\n\n" ++
  "🗓️ Check-in: " ++ env.renderDate checkInStr ++ "\n" ++
  "🗓️ Check-out: " ++ env.renderDate checkOutStr ++ "\n" ++
  "👥 Guests: " ++ toString adults ++ " adult" ++ (if adults > 1 then "s" else "") ++ "\n\n" ++
  String.join (hotelBlocks hotelOffers) ++
  "Would you like more details about any of these hotels or to modify your search criteria?"

/-! ## Hotel parameter extraction (openai.service.ts lines 762-808) -/

/-- `[A-Za-z\s,]`. -/
def alphaSpCommaRE : RE := RE.cls (fun c => c.isAlpha || spaceChar c || c == ',')

/-- `[\s-]`. -/
def spaceDashRE : RE := RE.cls (fun c => spaceChar c || c == '-')

/-- `[/\-]`. -/
def slashDashRE : RE := RE.cls (fun c => c == '/' || c == '-')

/-- `/(?:in|at|near|to)\s+([A-Za-z\s,]+?(?:\s+in\s+[A-Za-z\s]+)?)(?:\s+from|\s+on|\s+for|$)/i`
(line 766). -/
def cityStatePattern : RE :=
  catRE [altListRE [litRE "in", litRE "at", litRE "near", litRE "to"], wsPlus,
    RE.grp 1 (catRE [lazyPlusRE alphaSpCommaRE,
      optRE (catRE [wsPlus, litRE "in", wsPlus, plusRE alphaSpRE])]),
    altListRE [catRE [wsPlus, litRE "from"], catRE [wsPlus, litRE "on"],
               catRE [wsPlus, litRE "for"], RE.eos]]

/-- `/(?:hotel|stay|room|accommodation)(?:\s+in|\s+at|\s+near|\s+to)?\s+([A-Za-z\s,]+)/i`
(line 771). -/
def generalLocationPattern : RE :=
  catRE [altListRE [litRE "hotel", litRE "stay", litRE "room", litRE "accommodation"],
    optRE (altListRE [catRE [wsPlus, litRE "in"], catRE [wsPlus, litRE "at"],
                      catRE [wsPlus, litRE "near"], catRE [wsPlus, litRE "to"]]),
    wsPlus, RE.grp 1 (plusRE alphaSpCommaRE)]

/-- `/([A-Za-z]+(?:\s*,\s*[A-Za-z]+)?)/i` (line 777). -/
def fallbackCityPattern : RE :=
  RE.grp 1 (catRE [plusRE alphaRE,
    optRE (catRE [starRE wsRE, litRE ",", starRE wsRE, plusRE alphaRE])])

/-- The date alternative shared by the check-in/check-out patterns:
`[A-Za-z]+\s+\d{1,2}(?:st|nd|rd|th)?(?:,\s+\d{4})?|\d{1,2}[/\-]\d{1,2}[/\-]\d{2,4}`. -/
def hotelDateAltRE : RE :=
  altListRE [
    catRE [plusRE alphaRE, wsPlus, digitRE, optRE digitRE,
           optRE (altListRE [litRE "st", litRE "nd", litRE "rd", litRE "th"]),
           optRE (catRE [litRE ",", wsPlus, digitRE, digitRE, digitRE, digitRE])],
    catRE [digitRE, optRE digitRE, slashDashRE, digitRE, optRE digitRE, slashDashRE,
           digitRE, digitRE, optRE digitRE, optRE digitRE]]

/-- `checkInPattern` (line 789). -/
def checkInPattern : RE :=
  catRE [altListRE [litRE "from", litRE "on", litRE "starting",
                    catRE [litRE "check", starRE spaceDashRE, litRE "in"]],
         wsPlus, RE.grp 1 hotelDateAltRE]

/-- `checkOutPattern` (line 795). -/
def checkOutPattern : RE :=
  catRE [altListRE [litRE "to", litRE "until", litRE "through", litRE "checkout",
                    catRE [litRE "check", starRE spaceDashRE, litRE "out"]],
         wsPlus, RE.grp 1 hotelDateAltRE]

/-- `adultsPattern` (line 802). -/
def adultsPattern : RE :=
  catRE [RE.grp 1 (plusRE digitRE), wsPlus,
         altListRE [litRE "adult", litRE "adults", litRE "people", litRE "guests"]]

/-- `parseInt(s, 10)` on an all-digit capture. -/
def parseIntNat (s : String) : Nat :=
  s.data.foldl (fun a c => 10 * a + (c.toNat - 48)) 0

structure HotelParams where
  city : Option String
  checkIn : Option String
  checkOut : Option String
  adults : Nat
deriving DecidableEq

/-- The extraction block of `handleHotelIntent` (lines 756-808): the three
city patterns in order, the check-in/check-out patterns, and the adults
count clamped to `[1, 9]`. -/
def extractHotelParams (message : String) : HotelParams :=
  let city := ((reCapture cityStatePattern message 1).orElse (fun _ =>
    (reCapture generalLocationPattern message 1).orElse (fun _ =>
      reCapture fallbackCityPattern message 1))).map jsTrim
  let checkIn := (reCapture checkInPattern message 1).map jsTrim
  let checkOut := (reCapture checkOutPattern message 1).map jsTrim
  let adults :=
    match reCapture adultsPattern message 1 with
    | some ds =>
      let v := parseIntNat ds
      if v < 1 then 1 else if v > 9 then 9 else v
    | none => 1
  ⟨city, checkIn, checkOut, adults⟩

/-- `date.setDate(n)`: replace the day of month, normalizing overflow
arithmetically. -/
def jsSetDate (z : Int) (n : Int) : Int :=
  let c := civilFromDays z
  daysFromCivil c.1 c.2.1 1 + (n - 1)

/-- `date.getDate()`: the day of month. -/
def dayOfMonth (z : Int) : Int := (civilFromDays z).2.2

/-! ## Intent handlers (openai.service.ts lines 564-940) -/

/-- The flight-service-unavailable reply (lines 576-585). -/
def flightSvcUnavailableMsg : String :=
  "I'd be happy to help you find flights, but the flight search service is currently unavailable. \n\nPlease ensure:\n1. Amadeus API credentials are set in your .env file:\n   - AMADEUS_CLIENT_ID=your_client_id\n   - AMADEUS_CLIENT_SECRET=your_client_secret\n\n2. The credentials are valid for the Amadeus test environment.\n\nOnce configured, I'll be able to search for real flight options for you."

/-- The hotel-service-unavailable reply (lines 697-706). -/
def hotelSvcUnavailableMsg : String :=
  "I'd be happy to help you find hotels, but the hotel search service is currently unavailable. \n\nPlease ensure:\n1. Amadeus API credentials are set in your .env file:\n   - AMADEUS_CLIENT_ID=your_client_id\n   - AMADEUS_CLIENT_SECRET=your_client_secret\n\n2. The credentials are valid for the Amadeus test environment.\n\nOnce configured, I'll be able to search for real hotel options for you."

/-- The clarifying prompt for a missing origin or destination (line 592). -/
def flightMissingCitiesPrompt : String :=
  "I'd be happy to search for flights for you. Please provide both the departure city and destination city. For example: 'Find flights from New York to London on June 15th'"

/-- The clarifying prompt for a missing departure date (line 596). -/
def flightMissingDatePrompt (origin destination : String) : String :=
  "I found that you want to travel from " ++ origin ++ " to " ++ destination ++
    ". What date would you like to depart?"

/-- The clarifying prompt for a missing hotel city (line 811). -/
def hotelMissingCityPrompt : String :=
  "I'd be happy to help you find hotels. Which city are you looking to stay in?"

/-- The Amadeus error-detail extraction of lines 636-646 (`JSON.parse` of
an embedded errors array, then `errors[0].detail || errors[0].title || ''`),
modelled as a scan for the corresponding JSON fields; empty when the
message embeds no errors array. -/
def jsonDetail (e : String) : String :=
  if jsIncludes e "\x7b\"errors\"" then
    match (fun n => (afterFirst n e.data)) "\"detail\":\"".data with
    | some rest => String.mk (rest.takeWhile (fun c => !(c == '"')))
    | none =>
      match (fun n => (afterFirst n e.data)) "\"title\":\"".data with
      | some rest => String.mk (rest.takeWhile (fun c => !(c == '"')))
      | none => ""
  else ""
where
  afterFirst : Chars → Chars → Option Chars
    | n, hay =>
      if startsList n hay then some (hay.drop n.length)
      else
        match hay with
        | [] => none
        | _ :: t => afterFirst n t

/-- The no-flights-found reply (lines 651-660). -/
def noFlightsReply (origin destination departDate : String) : String :=
  "I couldn't find any flights from " ++ origin ++ " to " ++ destination ++ " on " ++
  departDate ++ ". This could be because:\n\n1. The route might not be available on that date\n2. The airports might be too small or the cities incorrectly identified\n3. The date might be too far in the future or already passed\n\nWould you like to try:\n- Different dates?\n- Nearby airports?\n- A different route?"

/-- The invalid-location-codes reply (lines 663-667). -/
def invalidCodesReply : String :=
  "I'm having trouble finding the airport codes for your cities. Can you provide more specific information?\n\nFor example, instead of \"UK\" as a destination, please specify a city like \"London\", \"Manchester\", or \"Edinburgh\".\n\nSimilarly, for the US, please specify cities like \"New York\", \"Los Angeles\", or \"Chicago\" rather than just \"USA\"."

/-- The inner catch of `handleFlightIntent` (lines 631-673). -/
def flightErrorReply (origin destination departDate msg : String) : String :=
  let errorDetail := jsonDetail msg
  if jsIncludes msg "Authentication failed" then
    "The flight search service is not properly configured. Please check your Amadeus API credentials."
  else if jsIncludes msg "No flights found" then
    noFlightsReply origin destination departDate
  else if jsIncludes errorDetail "INVALID FORMAT" || jsIncludes errorDetail "must be a 3-letter code" then
    invalidCodesReply
  else if errorDetail ≠ "" then
    "I encountered an issue while searching for flights: " ++ errorDetail ++
      ". Please try again with more specific locations."
  else
    "I encountered an issue while searching for flights. " ++
      (if msg = "" then "Please try again with specific airport codes if possible." else msg)

/-- The observable outcome of the flight handler: the reply, and the
search parameters it handed to the adapter (when it got that far). -/
structure FlightHandlerOut where
  reply : String
  searchedWith : Option (String × String × String)
deriving DecidableEq

/-- `handleFlightIntent` (lines 564-679): last user turn, initialization
gate, extraction, the two clarifying prompts, IATA resolution, date
normalization, the provider search and the formatted reply, with the
source's catch taxonomy. -/
def handleFlightIntent (env : Env) (messages : List Msg) : FlightHandlerOut :=
  match findLastUser messages with
  | none => ⟨"Please provide details about your flight search.", none⟩
  | some userMessage =>
    if !env.amadeusInit then ⟨flightSvcUnavailableMsg, none⟩
    else
      let params := extractFlightParams userMessage.content
      if !(optTruthy params.origin) || !(optTruthy params.destination) then
        ⟨flightMissingCitiesPrompt, none⟩
      else if !(optTruthy params.departDate) then
        ⟨flightMissingDatePrompt (params.origin.getD "") (params.destination.getD ""), none⟩
      else
        match getIATACode env (params.origin.getD ""), getIATACode env (params.destination.getD "") with
        | .ok originCode, .ok destinationCode =>
          let formattedDate := formatDate env.today (params.departDate.getD "")
          if originCode = "" || destinationCode = "" then
            ⟨"I encountered an issue while searching for flights. Invalid airport codes", none⟩
          else
            let out := svcSearchFlights env originCode destinationCode formattedDate none 1 "ECONOMY"
            match out.result with
            | .ok flightOffers =>
              ⟨formatFlightResponse env flightOffers (params.origin.getD "")
                 (params.destination.getD "") (params.departDate.getD ""),
               some (originCode, destinationCode, formattedDate)⟩
            | .error e =>
              ⟨flightErrorReply (params.origin.getD "") (params.destination.getD "")
                 (params.departDate.getD "") e,
               some (originCode, destinationCode, formattedDate)⟩
        | _, _ =>
          ⟨"I encountered an issue while searching for flights. Please try again with more specific details.", none⟩

/-- The observable outcome of the hotel handler: the reply, and the
city code, check-in, check-out and adults it handed to the adapter (when
it searched). -/
structure HotelHandlerOut where
  reply : String
  searchedWith : Option (String × String × String × Nat)
deriving DecidableEq

/-- The city-not-found hotel reply (line 931). -/
def hotelCityNotFoundReply (city : String) : String :=
  "I couldn't find any hotels in " ++ city ++ ". The city might be misspelled or not available in our database. Could you try a different city or specify the country as well?"

/-- `handleHotelIntent` (lines 687-940): last user turn, initialization
gate, extraction, the missing-city prompt, IATA resolution, the
check-in/check-out defaulting policy (today and a three-night stay), the
provider search, the inline formatting, and the source's catch taxonomy. -/
def handleHotelIntent (env : Env) (messages : List Msg) : HotelHandlerOut :=
  match findLastUser messages with
  | none => ⟨"Please provide details about your hotel search.", none⟩
  | some userMessage =>
    if !env.amadeusInit then ⟨hotelSvcUnavailableMsg, none⟩
    else
      let params := extractHotelParams userMessage.content
      if !(optTruthy params.city) then ⟨hotelMissingCityPrompt, none⟩
      else
        let city := params.city.getD ""
        match getIATACode env city with
        | .error e =>
          ⟨"I encountered an issue while searching for hotels: " ++
             (if e = "" then "Please try again." else e), none⟩
        | .ok cityCode =>
          let checkInD : Int :=
            match params.checkIn with
            | some s => (jsNewDate (formatDate env.today s)).getD (env.today + 7)
            | none => env.today
          let checkOutD : Int :=
            match params.checkOut with
            | some s =>
              match jsNewDate (formatDate env.today s) with
              | some z => if z ≤ checkInD then jsSetDate z (dayOfMonth checkInD + 3) else z
              | none => checkInD + 3
            | none => checkInD + 3
          let checkInStr := isoOfDay checkInD
          let checkOutStr := isoOfDay checkOutD
          if cityCode = "" then ⟨hotelCityNotFoundReply city, none⟩
          else
            let out := svcSearchHotels env cityCode checkInStr checkOutStr params.adults
            let reply :=
              match out.result with
              | .ok hotelOffers =>
                if hotelOffers.isEmpty then
                  "I couldn't find any available hotels in " ++ city ++
                    " for those dates. Would you like to try different dates or a nearby city?"
                else
                  formatHotelResponse env hotelOffers city checkInStr checkOutStr params.adults
              | .error e =>
                let e2 := "Hotel search failed: " ++ (if e = "" then "Unknown error" else e)
                if jsIncludes e2 "Authentication failed" then
                  "The hotel search service is not properly configured. Please check your Amadeus API credentials."
                else if jsIncludes e2 "Invalid city code" || jsIncludes e2 "Unable to find city code" then
                  hotelCityNotFoundReply city
                else
                  "I encountered an issue searching for hotels in " ++ city ++ ": " ++
                    (if e2 = "" then "Please try again with more specific details." else e2)
            ⟨reply, some (cityCode, checkInStr, checkOutStr, params.adults)⟩

/-! ## Response orchestration (openai.service.ts lines 945-1071) -/

/-- The static keyword-keyed fallback (lines 945-968), for the
message-list case used by `generateResponse`. -/
def getFallbackResponse (messages : List Msg) : String :=
  let userInput := ((findLastUser messages).map Msg.content).getD ""
  let lowerInput := jsToLower userInput
  if jsIncludes lowerInput "flight" then
    "I'd be happy to help you find flights. Please let me know your departure city, destination, and travel dates."
  else if jsIncludes lowerInput "hotel" then
    "I can help you find hotels. What city are you visiting and when do you need accommodation?"
  else
    "I'm your travel assistant. I can help you search for flights and hotels. What would you like to explore today?"

/-- `generateStandardResponse` (lines 973-998): the LLM completion, or the
static fallback when the call throws or returns no content. -/
def generateStandardResponse (env : Env) (messages : List Msg) : String :=
  env.llmReply.getD (getFallbackResponse messages)

/-- The canned first-turn greeting (line 1025). -/
def firstTurnGreeting : String :=
  "Hello! I'm your AI travel assistant. I can help you plan trips, find flights, book hotels, and create amazing itineraries. What would you like to explore today?"

/-- `/^(hi|hello|hey|greetings|what can you do|help me|how does this work)$/i`
(line 1029), applied to the trimmed content. -/
def isSimpleGreeting (content : String) : Bool :=
  reTest (catRE [RE.bos,
    RE.grp 1 (altListRE [litRE "hi", litRE "hello", litRE "hey", litRE "greetings",
      litRE "what can you do", litRE "help me", litRE "how does this work"]),
    RE.eos]) (jsTrim content)

/-- The capabilities reply (lines 1032-1038). -/
def capabilitiesReply : String :=
  "I can help you with a variety of travel-related tasks, including:\n\n" ++
  "1. Flight Search: Find and compare flights based on your preferences for dates, destinations, and airlines.\n\n" ++
  "2. Hotel Booking: Locate hotels that suit your budget and requirements, and provide booking information.\n\n" ++
  "3. Trip Planning: Offer suggestions for travel itineraries, including popular attractions and activities at your destination.\n\n" ++
  "4. Travel Advice: Provide tips on travel safety, packing, and cultural insights for different regions.\n\n" ++
  "5. Real-Time Updates: Access current data for flights and hotels to ensure you have the most accurate information.\n\n" ++
  "Let me know what you need help with, and I'll be glad to assist!"

/-- The short greeting reply (line 1040). -/
def helloReply : String :=
  "Hello! How can I assist you with your travel plans today? Are you looking for flights, hotels, or some travel inspiration?"

/-- The booking-intent reply (line 1057). -/
def bookingInfoReply : String :=
  "I can help you with flight bookings! To proceed, I'll need:\n\n1. First, let's search for your flight\n2. Select the flight you want to book\n3. Provide passenger details\n4. Confirm and complete the booking\n\nWhat route would you like to book? Please provide your departure city, destination, and travel date."

/-- The observable outcome of one `generateResponse` turn: the reply,
whether `detectTravelIntent` ran, and which specialized handler the turn
was dispatched to (if any). -/
structure TurnResult where
  reply : String
  ranClassifier : Bool
  dispatched : Option IntentType
deriving DecidableEq

/-- `generateResponse` (lines 1003-1071): the OpenAI-configuration gate to
the static fallback; the first-turn / no-user-turn canned greeting; the
simple-greeting short-circuit; then intent detection, the 0.65 dispatch
threshold, and the handler dispatch, with generic generation for
everything else. -/
def generateResponse (env : Env) (messages : List Msg) : TurnResult :=
  if !env.openaiKey then ⟨getFallbackResponse messages, false, none⟩
  else
    match findLastUser messages with
    | none => ⟨firstTurnGreeting, false, none⟩
    | some userMessage =>
      if messages.length ≤ 1 then ⟨firstTurnGreeting, false, none⟩
      else if isSimpleGreeting userMessage.content then
        if jsIncludes (jsToLower userMessage.content) "what can you do" then
          ⟨capabilitiesReply, false, none⟩
        else ⟨helloReply, false, none⟩
      else
        match detectTravelIntent userMessage.content with
        | some travelIntent =>
          if travelIntent.confidence > mkRat 65 100 then
            match travelIntent.intentType with
            | .flight => ⟨(handleFlightIntent env messages).reply, true, some IntentType.flight⟩
            | .hotel => ⟨(handleHotelIntent env messages).reply, true, some IntentType.hotel⟩
            | .booking => ⟨bookingInfoReply, true, some IntentType.booking⟩
            | _ => ⟨generateStandardResponse env messages, true, none⟩
          else ⟨generateStandardResponse env messages, true, none⟩
        | none => ⟨generateStandardResponse env messages, true, none⟩

/-! ## Concrete fixtures used by witnesses and counterexamples -/

/-- Is the string exactly three uppercase letters (the spec's location-code
shape)? -/
def isUpperAlphaCode3 (s : String) : Bool :=
  s.length == 3 && s.data.all Char.isUpper

/-- At most three characters, each an uppercase-stable alphanumeric
(an uppercase letter or a digit). -/
def upperAlnumAtMost3 (s : String) : Bool :=
  decide (s.length ≤ 3) && s.data.all (fun c => c.isAlphanum && (c.toUpper == c))

/-- The departure-date component of a flight-search call. -/
def callDep : ApiCall → Option String
  | .flightSearch _ _ dep _ _ _ => some dep
  | _ => none

/-- The return-date component of a flight-search call. -/
def callRet : ApiCall → Option (Option String)
  | .flightSearch _ _ _ r _ _ => some r
  | _ => none

/-- Is the call a booking (flight-order) request? -/
def isOrderCall : ApiCall → Bool
  | .flightOrder _ => true
  | _ => false

/-- A concrete environment: provider client not initialized, OpenAI key
present, the clock at 2026-10-11, inert oracles. -/
def plainEnv : Env where
  amadeusInit := false
  openaiKey := true
  today := daysFromCivil 2026 10 11
  locationsApi := fun _ _ => .error ⟨none, none, none, none, "", "network unavailable"⟩
  flightSearchApi := fun _ _ _ _ _ _ => .ok []
  pricingApi := fun _ => .error ⟨none, none, none, none, "", "network unavailable"⟩
  bookingApi := fun _ => .error ⟨none, none, none, none, "", "network unavailable"⟩
  hotelsByCityApi := fun _ => .ok [⟨"HLPAR123"⟩]
  hotelOffersApi := fun _ => .ok []
  poiApi := fun _ _ _ => .error ⟨none, none, none, none, "", "network unavailable"⟩
  llmReply := none
  renderLocal := fun s => s
  renderDate := fun s => s
  msOf := fun _ => 0

/-- A quoted offer at 500.00. -/
def offer500 : FlightOffer := ⟨[], ⟨"500.00", none, "USD"⟩⟩

/-- The same offer confirmed at 510.00. -/
def offer510 : FlightOffer := ⟨[], ⟨"510.00", none, "USD"⟩⟩

/-- Four minimal hotel offers (only names). -/
def fourHotels : List HotelOffer :=
  [⟨some ⟨some "Alpha House", none, none, none⟩, none⟩,
   ⟨some ⟨some "Beta Lodge", none, none, none⟩, none⟩,
   ⟨some ⟨some "Gamma Inn", none, none, none⟩, none⟩,
   ⟨some ⟨some "Delta Suites", none, none, none⟩, none⟩]

/-- Six minimal flight offers with one-segment itineraries. -/
def sixOffers : List FlightOffer :=
  (List.range 6).map (fun i =>
    ⟨[⟨[⟨⟨"2026-11-01T08:00", "JFK"⟩, ⟨"2026-11-01T15:00", "LHR"⟩, some "BA", some "100",
        some "ECONOMY", none⟩], none⟩],
     ⟨toString (200 + i) ++ ".00", none, "USD"⟩⟩)

/-! ## Shared lemmas -/

theorem char_bounded_facts : ∀ n, n < 128 → ((Char.ofNat n).isAlphanum = true →
    ((Char.ofNat n).toUpper.isAlphanum = true ∧
     (Char.ofNat n).toUpper.toUpper = (Char.ofNat n).toUpper)) := by decide

theorem char_toNat_lt_128 (c : Char) (h : c.isAlphanum = true) : c.toNat < 128 := by
  simp only [Char.isAlphanum, Char.isAlpha, Char.isUpper, Char.isLower, Char.isDigit,
    Bool.or_eq_true, Bool.and_eq_true, decide_eq_true_eq] at h
  have hv : c.val ≤ 122 := by
    rcases h with (⟨_, h2⟩ | ⟨_, h2⟩) | ⟨_, h2⟩
    · exact UInt32.le_trans h2 (by decide)
    · exact h2
    · exact UInt32.le_trans h2 (by decide)
  have h2 : c.toNat ≤ 122 := UInt32.toNat_le_of_le (by decide) hv
  omega

theorem char_alnum_toUpper (c : Char) (h : c.isAlphanum = true) :
    c.toUpper.isAlphanum = true ∧ c.toUpper.toUpper = c.toUpper := by
  have h128 := char_bounded_facts c.toNat (char_toNat_lt_128 c h)
  rw [Char.ofNat_toNat] at h128
  exact ⟨(h128 h).1, (h128 h).2⟩

theorem startsList_self_append (mid post : Chars) : startsList mid (mid ++ post) = true := by
  induction mid with
  | nil => rfl
  | cons a as ih => simp [startsList, ih]

theorem hasSub_cons (n : Chars) (c : Char) (t : Chars) :
    hasSub n (c :: t) = (startsList n (c :: t) || hasSub n t) := rfl

theorem hasSub_self_append (mid post : Chars) : hasSub mid (mid ++ post) = true := by
  cases mid with
  | nil =>
    cases post with
    | nil => rfl
    | cons b bs => rw [List.nil_append, hasSub_cons]; simp [startsList]
  | cons a as =>
    rw [List.cons_append, hasSub_cons]
    have h := startsList_self_append (a :: as) post
    rw [List.cons_append] at h
    simp [h]

theorem hasSub_append_mid (pre mid post : Chars) : hasSub mid (pre ++ (mid ++ post)) = true := by
  induction pre with
  | nil => rw [List.nil_append]; exact hasSub_self_append mid post
  | cons c cs ih => rw [List.cons_append, hasSub_cons, ih, Bool.or_true]

theorem ratSub_eq (a b : ℚ) : ratSub a b = a - b := (Rat.sub_def' a b).symm

theorem ratAbs_eq (a : ℚ) : ratAbs a = |a| := by
  unfold ratAbs
  split
  · next h =>
    rw [← Rat.neg_mkRat, Rat.mkRat_self]
    have hneg : a < 0 := by
      rw [← not_le, ← Rat.num_nonneg]; omega
    rw [abs_of_neg hneg]
  · next h =>
    have hpos : 0 ≤ a := by rw [← Rat.num_nonneg]; omega
    rw [abs_of_nonneg hpos]

theorem rat_blt_iff (a b : ℚ) : Rat.blt a b = true ↔ a < b := Iff.rfl

theorem absDiffGtTol_iff (a b : ℚ) :
    absDiffGtTol (some a) (some b) = true ↔ |a - b| > 1 / 100 := by
  show Rat.blt (mkRat 1 100) (ratAbs (ratSub a b)) = true ↔ _
  rw [ratSub_eq, ratAbs_eq, rat_blt_iff,
    show (mkRat 1 100 : ℚ) = 1 / 100 by norm_num [Rat.mkRat_eq_div]]

/-! ## C5: fail-fast when the provider client is not initialized -/

/-- Claim C5: when the provider client state is not initialized, every
Provider Adapter operation — `searchFlights`, `searchHotels`,
`searchPointsOfInterest`, `lookupCity`, `confirmFlightPrice`,
`createFlightBooking` — fails with the descriptive not-initialized error
and attempts no network call (its call list is empty). -/
theorem c5_not_initialized (env : Env) (h : env.amadeusInit = false)
    (o d dep : String) (ret : Option String) (adults : Nat) (cabin : String)
    (cityCode checkIn checkOut : String) (hAdults : Nat)
    (lat lng : Int) (radius : Nat) (keyword subType : String)
    (offers : List FlightOffer) (offer : FlightOffer) :
    svcSearchFlights env o d dep ret adults cabin = ⟨[], .error notInitMsg⟩ ∧
    svcSearchHotels env cityCode checkIn checkOut hAdults = ⟨[], .error notInitMsg⟩ ∧
    svcSearchPointsOfInterest env lat lng radius = ⟨[], .error notInitMsg⟩ ∧
    svcLookupCity env keyword subType = ⟨[], .error notInitMsg⟩ ∧
    svcConfirmFlightPrice env offers = ⟨[], .error notInitMsg⟩ ∧
    svcCreateFlightBooking env offer = ⟨[], .error notInitMsg⟩ := by
  refine ⟨?_, ?_, ?_, ?_, ?_, ?_⟩ <;>
    simp [svcSearchFlights, svcSearchHotels, svcSearchPointsOfInterest, svcLookupCity,
      svcConfirmFlightPrice, svcCreateFlightBooking, h]

/-- Witness for C5 at the concrete uninitialized environment. -/
theorem c5_not_initialized_witness :
    svcSearchFlights plainEnv "JFK" "LHR" "2026-12-01" none 1 "ECONOMY" = ⟨[], .error notInitMsg⟩ ∧
    svcSearchHotels plainEnv "PAR" "2026-12-01" "2026-12-04" 2 = ⟨[], .error notInitMsg⟩ ∧
    svcSearchPointsOfInterest plainEnv 48 2 2 = ⟨[], .error notInitMsg⟩ ∧
    svcLookupCity plainEnv "London" "CITY" = ⟨[], .error notInitMsg⟩ ∧
    svcConfirmFlightPrice plainEnv [offer500] = ⟨[], .error notInitMsg⟩ ∧
    svcCreateFlightBooking plainEnv offer500 = ⟨[], .error notInitMsg⟩ :=
  c5_not_initialized plainEnv rfl "JFK" "LHR" "2026-12-01" none 1 "ECONOMY"
    "PAR" "2026-12-01" "2026-12-04" 2 48 2 2 "London" "CITY" [offer500] offer500

/-! ## C1: the price-change gate -/

theorem confirm_calls_no_order (env : Env) (offers : List FlightOffer) :
    ∀ c ∈ (svcConfirmFlightPrice env offers).calls, isOrderCall c = false := by
  unfold svcConfirmFlightPrice
  split
  · intro c hc; simp at hc
  · split <;> (intro c hc; simp at hc; subst hc; rfl)

/-- Claim C1: whenever `confirmPrice` succeeds but the confirmed price
differs from the quoted offer price by more than 0.01 currency units, the
booking flow stops with the price-changed outcome, `createFlightBooking`
is not invoked, and no flight-order request is attempted. -/
theorem c1_price_gate (env : Env) (sel confirmedOffer : FlightOffer)
    (pc : ConfirmResponse) (p q : ℚ)
    (hconf : (svcConfirmFlightPrice env [sel]).result = .ok pc)
    (hhead : pc.flightOffers.head? = some confirmedOffer)
    (hp : jsParseFloat sel.price.total = some p)
    (hq : jsParseFloat confirmedOffer.price.total = some q)
    (hdiff : |p - q| > (1 : ℚ) / 100) :
    (bookingCreateBooking env (some sel)).response = .priceChanged (some p) (some q) ∧
    (bookingCreateBooking env (some sel)).bookingAttempted = false ∧
    ∀ c ∈ (bookingCreateBooking env (some sel)).calls, isOrderCall c = false := by
  have habs : absDiffGtTol (some p) (some q) = true := (absDiffGtTol_iff p q).mpr hdiff
  simp only [bookingCreateBooking, hconf, hhead, hp, hq, habs, if_true]
  exact ⟨trivial, trivial, confirm_calls_no_order env [sel]⟩

/-- Witness for C1: quoted 500.00, confirmed 510.00 yields the
price-changed outcome and no booking attempt. -/
theorem c1_price_gate_witness :
    (bookingCreateBooking
        { plainEnv with amadeusInit := true, pricingApi := fun _ => .ok ⟨[offer510]⟩ }
        (some offer500)).response = .priceChanged (some (mkRat 50000 100)) (some (mkRat 51000 100)) ∧
    (bookingCreateBooking
        { plainEnv with amadeusInit := true, pricingApi := fun _ => .ok ⟨[offer510]⟩ }
        (some offer500)).bookingAttempted = false ∧
    ∀ c ∈ (bookingCreateBooking
        { plainEnv with amadeusInit := true, pricingApi := fun _ => .ok ⟨[offer510]⟩ }
        (some offer500)).calls, isOrderCall c = false :=
  c1_price_gate _ offer500 offer510 ⟨[offer510]⟩ (mkRat 50000 100) (mkRat 51000 100) rfl rfl
    (by decide) (by decide) (by norm_num [Rat.mkRat_eq_div])

/-! ## C2: location-code shape -/

theorem table_codes_shape : ∀ e ∈ airportCodes, upperAlnumAtMost3 e.2 = true := by decide

theorem fallback_code_shape (l : String) : upperAlnumAtMost3 (getFallbackAirportCode l) = true := by
  unfold getFallbackAirportCode
  dsimp only
  split
  · next e he => exact table_codes_shape e (List.mem_of_find?_eq_some he)
  · split
    · next e he => exact table_codes_shape e (List.mem_of_find?_eq_some he)
    · simp only [upperAlnumAtMost3, Bool.and_eq_true, decide_eq_true_eq]
      constructor
      · show (String.mk (jsToUpperList ((l.data.filter Char.isAlphanum).take 3))).data.length ≤ 3
        simp only [jsToUpperList, List.length_map]
        exact le_trans (List.length_take_le 3 _) (le_refl 3)
      · rw [List.all_eq_true]
        intro c hc
        simp only [jsToUpperList] at hc
        rcases List.mem_map.mp hc with ⟨c0, hc0, rfl⟩
        have hmem : c0 ∈ l.data.filter Char.isAlphanum := List.take_subset 3 _ hc0
        have halnum : c0.isAlphanum = true := List.of_mem_filter hmem
        rcases char_alnum_toUpper c0 halnum with ⟨h1, h2⟩
        simp [h1, h2]

/-- Claim C2 (amended): for every non-empty input in fallback mode (the
provider client not initialized), `getIATACode` returns a code that is at
most 3 characters, each an uppercase letter or digit — it can be shorter
than 3 characters, or contain digits, because the synthesized fallback
takes the upper-cased first three alphanumerics of the name without
padding or letter filtering. -/
theorem c2_resolver_code_shape (env : Env) (loc : String)
    (hinit : env.amadeusInit = false) (hne : ¬ (jsTrim loc = "")) :
    ∃ code, getIATACode env loc = .ok code ∧ upperAlnumAtMost3 code = true := by
  unfold getIATACode
  rw [if_neg hne, hinit]
  exact ⟨_, rfl, fallback_code_shape _⟩

/-- Witness for C2 (amended) at the concrete input `"Zurich"`. -/
theorem c2_resolver_code_shape_witness :
    ∃ code, getIATACode plainEnv "Zurich" = .ok code ∧ upperAlnumAtMost3 code = true :=
  c2_resolver_code_shape plainEnv "Zurich" rfl (by decide)

/-- Counterexample to C2 as stated: the non-empty input `"12"` resolves to
the code `"12"` — two characters, both digits — with no resolution error,
so the 3-uppercase-letter invariant does not hold. -/
theorem c2_shape_counterexample :
    jsTrim "12" ≠ "" ∧
    getIATACode plainEnv "12" = .ok "12" ∧
    isUpperAlphaCode3 "12" = false := by
  refine ⟨by decide, rfl, by decide⟩

/-! ## C3: first-turn behavior -/

/-- Claim C3 (amended): on a conversation with at most one message, when
the OpenAI key is configured `generateResponse` returns exactly the canned
greeting; and whether or not it is configured, intent classification never
runs and no intent handler is dispatched (the unconfigured path returns
the keyword-keyed static fallback instead of the greeting). -/
theorem c3_first_turn_greeting (env : Env) (messages : List Msg)
    (h : messages.length ≤ 1) :
    (env.openaiKey = true → generateResponse env messages = ⟨firstTurnGreeting, false, none⟩) ∧
    (generateResponse env messages).ranClassifier = false ∧
    (generateResponse env messages).dispatched = none := by
  constructor
  · intro hk
    unfold generateResponse
    rw [hk]
    cases hfu : findLastUser messages with
    | none => simp
    | some m => simp [h]
  · unfold generateResponse
    cases hk : env.openaiKey with
    | false => simp
    | true =>
      cases hfu : findLastUser messages with
      | none => simp
      | some m => simp [h]

/-- Witness for C3 (amended): a first-turn flight request with the key
configured yields the greeting and no classification. -/
theorem c3_first_turn_greeting_witness :
    generateResponse plainEnv [⟨Role.user, "I need a flight from Chicago to Miami on July 15"⟩] =
      ⟨firstTurnGreeting, false, none⟩ ∧
    (generateResponse plainEnv
        [⟨Role.user, "I need a flight from Chicago to Miami on July 15"⟩]).ranClassifier = false :=
  ⟨(c3_first_turn_greeting plainEnv _ (by decide)).1 rfl,
   (c3_first_turn_greeting plainEnv _ (by decide)).2.1⟩

/-- Counterexample to C3 as stated: with the OpenAI key absent, the same
single-message conversation gets the keyword-keyed static fallback reply,
not the fixed canned greeting. -/
theorem c3_first_turn_counterexample :
    ([⟨Role.user, "I need a flight from Chicago to Miami on July 15"⟩] : List Msg).length ≤ 1 ∧
    (generateResponse { plainEnv with openaiKey := false }
        [⟨Role.user, "I need a flight from Chicago to Miami on July 15"⟩]).reply =
      "I'd be happy to help you find flights. Please let me know your departure city, destination, and travel dates." ∧
    (generateResponse { plainEnv with openaiKey := false }
        [⟨Role.user, "I need a flight from Chicago to Miami on July 15"⟩]).reply ≠
      firstTurnGreeting := by
  refine ⟨by decide, rfl, by decide⟩

/-! ## C6: future-date normalization in searchFlights -/

/-- Claim C6: `searchFlights` normalizes its dates before calling the
provider — a departure date strictly before today is searched as tomorrow,
and a provided return date earlier than the (parsed) departure date is
searched as the departure date plus 7 days. -/
theorem c6_search_date_normalization (env : Env) (o d dep : String) (ret : Option String)
    (adults : Nat) (cabin : String) (dz : Int)
    (hinit : env.amadeusInit = true)
    (hdep : jsNewDate dep = some dz) :
    (dz < env.today →
      ((svcSearchFlights env o d dep ret adults cabin).calls.head?.bind callDep) =
        some (isoOfDay (env.today + 1))) ∧
    (∀ r rz, ret = some r → jsNewDate r = some rz → rz < dz →
      ((svcSearchFlights env o d dep ret adults cabin).calls.head?.bind callRet) =
        some (some (isoOfDay (dz + 7)))) := by
  unfold svcSearchFlights
  rw [hinit]
  constructor
  · intro hpast
    simp [hdep, optLtOpt, hpast, callDep]
  · intro r rz hr hrz hlt
    subst hr
    simp [hdep, hrz, optLtOpt, hlt, callRet]

/-- Witness for C6: a past departure (2026-01-01 with today 2026-10-11)
and an earlier return date are both normalized. -/
theorem c6_search_date_normalization_witness :
    ((svcSearchFlights { plainEnv with amadeusInit := true } "JFK" "LHR" "2026-01-01"
        (some "2025-12-30") 1 "ECONOMY").calls.head?.bind callDep) =
      some (isoOfDay (daysFromCivil 2026 10 11 + 1)) ∧
    ((svcSearchFlights { plainEnv with amadeusInit := true } "JFK" "LHR" "2026-01-01"
        (some "2025-12-30") 1 "ECONOMY").calls.head?.bind callRet) =
      some (some (isoOfDay (daysFromCivil 2026 1 1 + 7))) :=
  ⟨(c6_search_date_normalization _ "JFK" "LHR" "2026-01-01" (some "2025-12-30") 1 "ECONOMY"
      (daysFromCivil 2026 1 1) rfl (by decide)).1 (by decide),
   (c6_search_date_normalization _ "JFK" "LHR" "2026-01-01" (some "2025-12-30") 1 "ECONOMY"
      (daysFromCivil 2026 1 1) rfl (by decide)).2 "2025-12-30" (daysFromCivil 2025 12 30)
      rfl (by decide) (by decide)⟩

/-! ## C7: classifier evaluation order -/

/-- Claim C7 (amended): classification is first-match in a fixed order, but
that order tests the flight and hotel pattern groups *before* the
booking-verb group — a message matching both a booking-verb pattern and a
flight (resp. hotel) pattern is classified flight (resp. hotel), and
booking wins only when neither flight nor hotel patterns match. -/
theorem c7_classifier_order (msg : String)
    (hne : ¬ (jsTrim msg = ""))
    (hgreet : greetingPatterns.any (fun p => reTest p (jsToLower msg)) = false) :
    (flightPatterns.any (fun p => reTest p (jsToLower msg)) = true →
      detectTravelIntent msg = some ⟨.flight, mkRat 9 10, msg, true⟩) ∧
    (flightPatterns.any (fun p => reTest p (jsToLower msg)) = false →
      hotelPatterns.any (fun p => reTest p (jsToLower msg)) = true →
      detectTravelIntent msg = some ⟨.hotel, mkRat 8 10, msg, true⟩) ∧
    (flightPatterns.any (fun p => reTest p (jsToLower msg)) = false →
      hotelPatterns.any (fun p => reTest p (jsToLower msg)) = false →
      bookingPatterns.any (fun p => reTest p (jsToLower msg)) = true →
      detectTravelIntent msg = some ⟨.booking, mkRat 95 100, msg, true⟩) := by
  refine ⟨fun hf => ?_, fun hf hh => ?_, fun hf hh hb => ?_⟩ <;>
    (unfold detectTravelIntent; rw [if_neg hne]) <;>
    simp only [hgreet, hf, Bool.false_eq_true, if_false, if_true]
  · simp [hh]
  · simp [hh, hb]

/-- Witness for C7 (amended): "book a flight" matches a flight pattern and
classifies flight; "book a ticket" matches only a booking pattern and
classifies booking. -/
theorem c7_classifier_order_witness :
    detectTravelIntent "book a flight" = some ⟨.flight, mkRat 9 10, "book a flight", true⟩ ∧
    detectTravelIntent "book a ticket" = some ⟨.booking, mkRat 95 100, "book a ticket", true⟩ :=
  ⟨(c7_classifier_order "book a flight" (by decide) (by decide)).1 (by decide),
   (c7_classifier_order "book a ticket" (by decide) (by decide)).2.2 (by decide) (by decide)
     (by decide)⟩

/-- Counterexample to C7 as stated: "book a flight" matches both a
booking-verb pattern and a flight pattern, yet classifies as flight
(confidence 0.9), not booking — booking verbs do not outrank flight
keyword matches. -/
theorem c7_booking_precedence_counterexample :
    bookingPatterns.any (fun p => reTest p (jsToLower "book a flight")) = true ∧
    flightPatterns.any (fun p => reTest p (jsToLower "book a flight")) = true ∧
    detectTravelIntent "book a flight" = some ⟨.flight, mkRat 9 10, "book a flight", true⟩ ∧
    (detectTravelIntent "book a flight").map TravelIntent.intentType ≠ some IntentType.booking := by
  refine ⟨by decide, by decide, rfl, by decide⟩

/-! ## C10: confidence constants always clear the dispatch threshold -/

theorem dispatch_of_detect (env : Env) (messages : List Msg) (m : Msg) (i : TravelIntent)
    (hk : env.openaiKey = true) (hfu : findLastUser messages = some m)
    (hlen : ¬ (messages.length ≤ 1)) (hsg : isSimpleGreeting m.content = false)
    (hdet : detectTravelIntent m.content = some i)
    (hconf : i.confidence > mkRat 65 100)
    (hty : i.intentType = .flight ∨ i.intentType = .hotel ∨ i.intentType = .booking) :
    (generateResponse env messages).dispatched = some i.intentType ∧
    (generateResponse env messages).ranClassifier = true := by
  unfold generateResponse
  simp only [hk, hfu, Bool.not_true, Bool.false_eq_true, if_false, hsg, hdet,
    if_neg hlen, if_pos hconf]
  rcases hty with h | h | h <;> rw [h] <;> exact ⟨rfl, rfl⟩

/-- Claim C10: every intent produced by `detectTravelIntent` carries one of
the fixed confidences 0.7, 0.8, 0.9, 0.95; each exceeds the 0.65 dispatch
threshold, so whenever classification runs and detects an intent, the turn
is dispatched to the matching specialized handler — the threshold never
defers a detected intent to generic generation. -/
theorem c10_confidence_dispatch (msg : String) (i : TravelIntent)
    (hdet : detectTravelIntent msg = some i) :
    (i.confidence = 7 / 10 ∨ i.confidence = 8 / 10 ∨ i.confidence = 9 / 10 ∨
      i.confidence = 95 / 100) ∧
    (65 : ℚ) / 100 < i.confidence ∧
    (∀ env messages m, env.openaiKey = true → findLastUser messages = some m →
      m.content = msg → ¬ (messages.length ≤ 1) → isSimpleGreeting msg = false →
      (generateResponse env messages).dispatched = some i.intentType ∧
      (generateResponse env messages).ranClassifier = true) := by
  have hbase :
      (i.confidence = 7 / 10 ∨ i.confidence = 8 / 10 ∨ i.confidence = 9 / 10 ∨
        i.confidence = 95 / 100) ∧
      (i.intentType = .flight ∨ i.intentType = .hotel ∨ i.intentType = .booking) := by
    unfold detectTravelIntent at hdet
    dsimp only at hdet
    split at hdet
    · exact absurd hdet (by simp)
    · split at hdet
      · exact absurd hdet (by simp)
      · split at hdet
        · injection hdet with h; subst h
          exact ⟨Or.inr (Or.inr (Or.inl (by norm_num [Rat.mkRat_eq_div]))), Or.inl rfl⟩
        · split at hdet
          · injection hdet with h; subst h
            exact ⟨Or.inr (Or.inl (by norm_num [Rat.mkRat_eq_div])), Or.inr (Or.inl rfl)⟩
          · split at hdet
            · injection hdet with h; subst h
              exact ⟨Or.inr (Or.inr (Or.inr (by norm_num [Rat.mkRat_eq_div]))),
                Or.inr (Or.inr rfl)⟩
            · split at hdet
              · injection hdet with h; subst h
                exact ⟨Or.inl (by norm_num [Rat.mkRat_eq_div]), Or.inl rfl⟩
              · split at hdet
                · injection hdet with h; subst h
                  exact ⟨Or.inl (by norm_num [Rat.mkRat_eq_div]), Or.inr (Or.inl rfl)⟩
                · exact absurd hdet (by simp)
  obtain ⟨hmem, hty⟩ := hbase
  have hgt : (65 : ℚ) / 100 < i.confidence := by
    rcases hmem with h | h | h | h <;> rw [h] <;> norm_num
  refine ⟨hmem, hgt, ?_⟩
  intro env messages m hk hfu hcontent hlen hsg
  have hsg2 : isSimpleGreeting m.content = false := by rw [hcontent]; exact hsg
  have hdet2 : detectTravelIntent m.content = some i := by rw [hcontent]; exact hdet
  have hconf : i.confidence > mkRat 65 100 := by
    rw [show (mkRat 65 100 : ℚ) = 65 / 100 by norm_num [Rat.mkRat_eq_div]]
    exact hgt
  exact dispatch_of_detect env messages m i hk hfu hlen hsg2 hdet2 hconf hty

/-- Witness for C10: a concrete flight request in a two-message
conversation is dispatched to the flight handler. -/
theorem c10_confidence_dispatch_witness :
    ((mkRat 9 10 : ℚ) = 7 / 10 ∨ (mkRat 9 10 : ℚ) = 8 / 10 ∨ (mkRat 9 10 : ℚ) = 9 / 10 ∨
      (mkRat 9 10 : ℚ) = 95 / 100) ∧
    (generateResponse plainEnv
        [⟨Role.user, "hello there"⟩, ⟨Role.user, "find flights from a to b"⟩]).dispatched =
      some IntentType.flight ∧
    (generateResponse plainEnv
        [⟨Role.user, "hello there"⟩, ⟨Role.user, "find flights from a to b"⟩]).ranClassifier =
      true := by
  have h := c10_confidence_dispatch "find flights from a to b"
    ⟨.flight, mkRat 9 10, "find flights from a to b", true⟩ (by decide)
  have h2 := h.2.2 plainEnv [⟨Role.user, "hello there"⟩, ⟨Role.user, "find flights from a to b"⟩]
    ⟨Role.user, "find flights from a to b"⟩ rfl (by decide) rfl (by decide) (by decide)
  exact ⟨h.1, h2.1, h2.2⟩

/-! ## C8: result caps and remaining-count notes -/

theorem jsIncludes_of_split (hay needle : String) (pre post : Chars)
    (h : hay.data = pre ++ (needle.data ++ post)) : jsIncludes hay needle = true := by
  unfold jsIncludes
  rw [h]
  exact hasSub_append_mid pre needle.data post

/-- Claim C8 (amended): the flight formatter shows at most 5 offers and,
when more were found, its reply includes the count of remaining unshown
results; the hotel formatter shows at most 3 offers but appends no
remaining-count text. -/
theorem c8_result_caps (env : Env) (offers : List FlightOffer) (o d dt : String)
    (hmore : 5 < offers.length) :
    (flightBlocks env offers).length ≤ 5 ∧
    jsIncludes (formatFlightResponse env offers o d dt)
      ("and " ++ toString (offers.length - 5) ++ " more options available") = true ∧
    ∀ hotels : List HotelOffer, (hotelBlocks hotels).length ≤ 3 := by
  refine ⟨?_, ?_, ?_⟩
  · calc (flightBlocks env offers).length
        ≤ (List.range (min 5 offers.length)).length := List.length_filterMap_le _ _
      _ = min 5 offers.length := List.length_range _
      _ ≤ 5 := min_le_left _ _
  · have hne : offers.isEmpty = false := by
      cases offers with
      | nil => simp at hmore
      | cons a l => rfl
    have hmin5 : min 5 offers.length = 5 := min_eq_left (le_of_lt hmore)
    apply jsIncludes_of_split _ _
      (("I found " ++ toString offers.length ++ " flight option" ++
        (if offers.length > 1 then "s" else "") ++ " from " ++ o ++ " to " ++ d ++ " on " ++
        dt ++ ":\n\n" ++ String.join (flightBlocks env offers) ++ "... ").data)
      ((".\n\n" ++ "Would you like to book any of these flights or see more options?").data)
    unfold formatFlightResponse
    rw [hne]
    simp only [Bool.false_eq_true, if_false, hmin5]
    rw [if_pos (by omega : offers.length > 5)]
    have hsplit1 : ("... and ").data = ("... ").data ++ ("and ").data := by decide
    have hsplit2 : (" more options available.\n\n").data =
        (" more options available").data ++ (".\n\n").data := by decide
    simp only [String.data_append, List.append_assoc, hsplit1, hsplit2]
    simp only [List.cons_append, List.nil_append, List.append_assoc]
  · intro hotels
    calc (hotelBlocks hotels).length
        ≤ (List.range (min 3 hotels.length)).length := List.length_filterMap_le _ _
      _ = min 3 hotels.length := List.length_range _
      _ ≤ 3 := min_le_left _ _

/-- Witness for C8 (amended) at six flight offers and four hotel offers. -/
theorem c8_result_caps_witness :
    (flightBlocks plainEnv sixOffers).length ≤ 5 ∧
    jsIncludes (formatFlightResponse plainEnv sixOffers "a" "b" "June 1")
      ("and " ++ toString (sixOffers.length - 5) ++ " more options available") = true ∧
    (hotelBlocks fourHotels).length ≤ 3 :=
  ⟨(c8_result_caps plainEnv sixOffers "a" "b" "June 1" (by decide)).1,
   (c8_result_caps plainEnv sixOffers "a" "b" "June 1" (by decide)).2.1,
   (c8_result_caps plainEnv sixOffers "a" "b" "June 1" (by decide)).2.2 fourHotels⟩

/-- Counterexample to C8 as stated: with four hotel offers (one more than
the cap of 3) the hotel reply contains no remaining-count text at all —
in particular not "1 more" — while the flight formatter in the same
situation does append its count. -/
theorem c8_hotel_count_counterexample :
    fourHotels.length = 4 ∧
    (hotelBlocks fourHotels).length = 3 ∧
    jsIncludes (formatHotelResponse plainEnv fourHotels "paris" "2026-12-01" "2026-12-04" 2)
      "1 more" = false ∧
    jsIncludes (formatFlightResponse plainEnv sixOffers "a" "b" "June 1")
      "and 1 more options available" = true := by
  refine ⟨rfl, by decide, by decide, by decide⟩

/-! ## C9: missing required fields -/

/-- Claim C9 (amended): with the provider initialized, a missing flight
origin/destination or departure date and a missing hotel city each produce
the corresponding clarifying prompt (and no search); but missing hotel
check-in/check-out dates are *not* prompted for — the handler silently
defaults check-in to today and check-out to a three-night stay and
proceeds with the search. -/
theorem c9_missing_field_prompts (env : Env) (messages : List Msg) (m : Msg)
    (hinit : env.amadeusInit = true) (hfu : findLastUser messages = some m) :
    ((optTruthy (extractFlightParams m.content).origin = false ∨
      optTruthy (extractFlightParams m.content).destination = false) →
      handleFlightIntent env messages = ⟨flightMissingCitiesPrompt, none⟩) ∧
    (optTruthy (extractFlightParams m.content).origin = true →
      optTruthy (extractFlightParams m.content).destination = true →
      optTruthy (extractFlightParams m.content).departDate = false →
      handleFlightIntent env messages =
        ⟨flightMissingDatePrompt ((extractFlightParams m.content).origin.getD "")
          ((extractFlightParams m.content).destination.getD ""), none⟩) ∧
    (optTruthy (extractHotelParams m.content).city = false →
      handleHotelIntent env messages = ⟨hotelMissingCityPrompt, none⟩) ∧
    ((extractHotelParams m.content).checkIn = none →
      ∀ q, (handleHotelIntent env messages).searchedWith = some q →
        q.2.1 = isoOfDay env.today ∧
        ((extractHotelParams m.content).checkOut = none →
          q.2.2.1 = isoOfDay (env.today + 3))) := by
  refine ⟨?_, ?_, ?_, ?_⟩
  · intro h
    unfold handleFlightIntent
    rw [hfu, hinit]
    rcases h with h | h <;> simp [h]
  · intro h1 h2 h3
    unfold handleFlightIntent
    rw [hfu, hinit]
    simp [h1, h2, h3]
  · intro h
    unfold handleHotelIntent
    rw [hfu, hinit]
    simp [h]
  · intro hci q
    unfold handleHotelIntent
    rw [hfu, hinit]
    simp only [Bool.not_true, Bool.false_eq_true, if_false]
    split
    · intro hq; exact absurd hq (by simp)
    · split
      · intro hq; exact absurd hq (by simp)
      · rw [hci]
        split
        · intro hq; exact absurd hq (by simp)
        · intro hq
          injection hq with hq2
          rw [← hq2]
          refine ⟨rfl, fun hco => ?_⟩
          rw [hco]

/-- Witness for C9 (amended): concrete inputs exercising each prompt and
the hotel-date defaulting. -/
theorem c9_missing_field_prompts_witness :
    handleFlightIntent { plainEnv with amadeusInit := true } [⟨Role.user, "zzz"⟩] =
      ⟨flightMissingCitiesPrompt, none⟩ ∧
    handleFlightIntent { plainEnv with amadeusInit := true }
        [⟨Role.user, "flights from New York to London"⟩] =
      ⟨flightMissingDatePrompt "New York" "London", none⟩ ∧
    handleHotelIntent { plainEnv with amadeusInit := true } [⟨Role.user, "12345"⟩] =
      ⟨hotelMissingCityPrompt, none⟩ ∧
    ("2026-10-11" = isoOfDay (daysFromCivil 2026 10 11) ∧
      ((extractHotelParams "find a hotel in paris").checkOut = none →
        "2026-10-14" = isoOfDay (daysFromCivil 2026 10 11 + 3))) :=
  ⟨(c9_missing_field_prompts { plainEnv with amadeusInit := true } [⟨Role.user, "zzz"⟩]
      ⟨Role.user, "zzz"⟩ rfl rfl).1 (Or.inl (by decide)),
   (c9_missing_field_prompts { plainEnv with amadeusInit := true }
      [⟨Role.user, "flights from New York to London"⟩]
      ⟨Role.user, "flights from New York to London"⟩ rfl rfl).2.1 (by decide) (by decide)
      (by decide),
   (c9_missing_field_prompts { plainEnv with amadeusInit := true } [⟨Role.user, "12345"⟩]
      ⟨Role.user, "12345"⟩ rfl rfl).2.2.1 (by decide),
   (c9_missing_field_prompts { plainEnv with amadeusInit := true }
      [⟨Role.user, "find a hotel in paris"⟩] ⟨Role.user, "find a hotel in paris"⟩ rfl rfl).2.2.2
      (by decide) ("CDG", "2026-10-11", "2026-10-14", 1) rfl⟩

/-- Counterexample to C9 as stated: "find a hotel in paris" has no
check-in or check-out date, yet the hotel handler does not ask for them —
it searches with guessed defaults (check-in today 2026-10-11, check-out
2026-10-14) and returns a search outcome, not a clarifying prompt. -/
theorem c9_hotel_date_guess_counterexample :
    (extractHotelParams "find a hotel in paris").checkIn = none ∧
    (extractHotelParams "find a hotel in paris").checkOut = none ∧
    (handleHotelIntent { plainEnv with amadeusInit := true }
        [⟨Role.user, "find a hotel in paris"⟩]).reply =
      "I couldn't find any available hotels in paris for those dates. Would you like to try different dates or a nearby city?" ∧
    (handleHotelIntent { plainEnv with amadeusInit := true }
        [⟨Role.user, "find a hotel in paris"⟩]).searchedWith =
      some ("CDG", "2026-10-11", "2026-10-14", 1) ∧
    (handleHotelIntent { plainEnv with amadeusInit := true }
        [⟨Role.user, "find a hotel in paris"⟩]).reply ≠ hotelMissingCityPrompt := by
  exact ⟨rfl, rfl, rfl, rfl, by decide⟩

/-! ## C4: date normalization -/

theorem digitChar_lt10_facts : ∀ k, k < 10 →
    ((Nat.digitChar k).isDigit = true ∧ (Nat.digitChar k).isAlpha = false ∧
     (Nat.digitChar k).isWhitespace = false ∧
     ((Nat.digitChar k).toLower == 's') = false ∧ ((Nat.digitChar k).toLower == 'n') = false ∧
     ((Nat.digitChar k).toLower == 'r') = false ∧ ((Nat.digitChar k).toLower == 't') = false) := by
  decide

theorem isDigit_dcm (x : Nat) : (Nat.digitChar (x % 10)).isDigit = true :=
  (digitChar_lt10_facts _ (Nat.mod_lt x (by decide))).1

theorem isAlpha_dcm (x : Nat) : (Nat.digitChar (x % 10)).isAlpha = false :=
  (digitChar_lt10_facts _ (Nat.mod_lt x (by decide))).2.1

theorem isWs_dcm (x : Nat) : (Nat.digitChar (x % 10)).isWhitespace = false :=
  (digitChar_lt10_facts _ (Nat.mod_lt x (by decide))).2.2.1

theorem noOrd_dcm (x : Nat) :
    ((Nat.digitChar (x % 10)).toLower == 's') = false ∧
    ((Nat.digitChar (x % 10)).toLower == 'n') = false ∧
    ((Nat.digitChar (x % 10)).toLower == 'r') = false ∧
    ((Nat.digitChar (x % 10)).toLower == 't') = false :=
  (digitChar_lt10_facts _ (Nat.mod_lt x (by decide))).2.2.2

theorem stripGo_eq_self : ∀ l : Chars,
    (∀ c ∈ l, ((c.toLower == 's') || (c.toLower == 'n') ||
               (c.toLower == 'r') || (c.toLower == 't')) = false) →
    stripGo l = l
  | [], _ => rfl
  | [_], _ => rfl
  | [_, _], _ => rfl
  | c :: d :: e :: rest, h => by
    have hd := h d (by simp)
    have hpair : isOrdPair d e = false := by
      simp only [Bool.or_eq_false_iff] at hd
      simp [isOrdPair, hd.1.1.1, hd.1.1.2, hd.1.2, hd.2]
    rw [stripGo, hpair, Bool.and_false, if_neg (by simp)]
    have htail := stripGo_eq_self (d :: e :: rest)
      (fun c2 hc2 => h c2 (List.mem_cons_of_mem c hc2))
    rw [htail]

theorem dropWhile_ws_eq_self (m : Chars) (hm : ∀ c ∈ m, c.isWhitespace = false) :
    m.dropWhile Char.isWhitespace = m := by
  cases m with
  | nil => rfl
  | cons a t =>
    rw [List.dropWhile_cons_of_neg]
    simp [hm a (by simp)]

theorem jsTrimList_eq_self (l : Chars) (h : ∀ c ∈ l, c.isWhitespace = false) :
    jsTrimList l = l := by
  unfold jsTrimList
  rw [dropWhile_ws_eq_self l h,
      dropWhile_ws_eq_self l.reverse (fun c hc => h c (List.mem_reverse.mp hc)),
      List.reverse_reverse]

theorem isoOfDay_data (z : Int) : (isoOfDay z).data =
    pad4 (civilFromDays z).1.toNat ++ '-' :: pad2 (civilFromDays z).2.1.toNat ++
      '-' :: pad2 (civilFromDays z).2.2.toNat := rfl

theorem isoOfDay_chars_nonws (z : Int) : ∀ c ∈ (isoOfDay z).data, c.isWhitespace = false := by
  rw [isoOfDay_data]
  simp only [pad4, pad2, List.cons_append, List.nil_append, List.mem_cons, List.not_mem_nil]
  intro c hc
  rcases hc with rfl|rfl|rfl|rfl|rfl|rfl|rfl|rfl|rfl|rfl|h
  · exact isWs_dcm _
  · exact isWs_dcm _
  · exact isWs_dcm _
  · exact isWs_dcm _
  · rfl
  · exact isWs_dcm _
  · exact isWs_dcm _
  · rfl
  · exact isWs_dcm _
  · exact isWs_dcm _
  · exact absurd h (by simp)

theorem isoOfDay_chars_noOrd (z : Int) : ∀ c ∈ (isoOfDay z).data,
    ((c.toLower == 's') || (c.toLower == 'n') || (c.toLower == 'r') || (c.toLower == 't')) = false := by
  rw [isoOfDay_data]
  simp only [pad4, pad2, List.cons_append, List.nil_append, List.mem_cons, List.not_mem_nil]
  intro c hc
  rcases hc with rfl|rfl|rfl|rfl|rfl|rfl|rfl|rfl|rfl|rfl|h
  · simp [(noOrd_dcm _).1, (noOrd_dcm _).2.1, (noOrd_dcm _).2.2.1, (noOrd_dcm _).2.2.2]
  · simp [(noOrd_dcm _).1, (noOrd_dcm _).2.1, (noOrd_dcm _).2.2.1, (noOrd_dcm _).2.2.2]
  · simp [(noOrd_dcm _).1, (noOrd_dcm _).2.1, (noOrd_dcm _).2.2.1, (noOrd_dcm _).2.2.2]
  · simp [(noOrd_dcm _).1, (noOrd_dcm _).2.1, (noOrd_dcm _).2.2.1, (noOrd_dcm _).2.2.2]
  · rfl
  · simp [(noOrd_dcm _).1, (noOrd_dcm _).2.1, (noOrd_dcm _).2.2.1, (noOrd_dcm _).2.2.2]
  · simp [(noOrd_dcm _).1, (noOrd_dcm _).2.1, (noOrd_dcm _).2.2.1, (noOrd_dcm _).2.2.2]
  · rfl
  · simp [(noOrd_dcm _).1, (noOrd_dcm _).2.1, (noOrd_dcm _).2.2.1, (noOrd_dcm _).2.2.2]
  · simp [(noOrd_dcm _).1, (noOrd_dcm _).2.1, (noOrd_dcm _).2.2.1, (noOrd_dcm _).2.2.2]
  · exact absurd h (by simp)

theorem endsWith4Digits_iso (z : Int) : endsWith4Digits (isoOfDay z) = false := by
  unfold endsWith4Digits
  rw [isoOfDay_data]
  simp only [pad4, pad2, List.cons_append, List.nil_append, List.reverse_cons, List.reverse_nil,
    List.append_assoc]
  simp

theorem preprocessDate_iso (today z : Int) :
    preprocessDate today (isoOfDay z) =
      isoOfDay z ++ " " ++ String.mk (pad4 (civilFromDays today).1.toNat) := by
  unfold preprocessDate
  have h1 : stripGo (isoOfDay z).data = (isoOfDay z).data :=
    stripGo_eq_self _ (isoOfDay_chars_noOrd z)
  have h2 : jsTrim (String.mk (isoOfDay z).data) = isoOfDay z := by
    unfold jsTrim
    rw [show (String.mk (isoOfDay z).data).data = (isoOfDay z).data from rfl,
        jsTrimList_eq_self _ (isoOfDay_chars_nonws z)]
  rw [h1, h2]
  dsimp only
  rw [endsWith4Digits_iso z, if_neg (by simp)]

/-- Re-normalizing an already-normalized date fails to parse: the appended
year makes a fourth date number, which the date parser rejects. -/
theorem jsNewDate_iso_year_none (today z : Int) :
    jsNewDate (isoOfDay z ++ " " ++ String.mk (pad4 (civilFromDays today).1.toNat)) = none := by
  unfold jsNewDate
  have hdata : (isoOfDay z ++ " " ++ String.mk (pad4 (civilFromDays today).1.toNat)).data =
      pad4 (civilFromDays z).1.toNat ++ '-' :: pad2 (civilFromDays z).2.1.toNat ++
      '-' :: pad2 (civilFromDays z).2.2.toNat ++ ' ' :: pad4 (civilFromDays today).1.toNat := by
    rw [String.data_append, String.data_append]
    rw [isoOfDay_data]
    simp [List.append_assoc]
  rw [hdata]
  simp only [pad4, pad2, List.cons_append, List.nil_append]
  simp only [isoParse, isDigit_dcm, isAlpha_dcm, isWs_dcm,
    show ('-').isDigit = false from rfl, show ('-').isAlpha = false from rfl,
    show ('-').isWhitespace = false from rfl, show (' ').isDigit = false from rfl,
    show (' ').isAlpha = false from rfl, show (' ').isWhitespace = true from rfl,
    dTokenize, dTokGo, dFlush, dCollect]
  simp [dCollect, show (('-') == '-') = true from rfl]

theorem isoOfDay_ne_empty (z : Int) : ¬ (isoOfDay z = "") := by
  intro h
  have h2 : (isoOfDay z).data = ("" : String).data := by rw [h]
  rw [isoOfDay_data] at h2
  simp [pad4, pad2] at h2

theorem formatDate_isoOfDay (today z : Int) :
    formatDate today (isoOfDay z) = isoOfDay (today + 1) := by
  unfold formatDate
  rw [if_neg (isoOfDay_ne_empty z), preprocessDate_iso, jsNewDate_iso_year_none]

theorem formatDate_eq_iso (today : Int) (s : String) : ∃ z, formatDate today s = isoOfDay z := by
  unfold formatDate
  split
  · exact ⟨today + 1, rfl⟩
  · split
    · exact ⟨today + 1, rfl⟩
    · split
      · exact ⟨today + 1, rfl⟩
      · exact ⟨_, rfl⟩

/-- Claim C4 (amended): `formatDate` is not idempotent; re-normalizing any
normalized date yields tomorrow's date (so `formatDate ∘ formatDate` is
constantly tomorrow, and idempotence holds exactly when the first
normalization already returned tomorrow). The past-date half of the claim
does hold: every string parsing to a date strictly before today
normalizes to tomorrow. -/
theorem c4_date_normalization (today : Int) (s : String) :
    formatDate today (formatDate today s) = isoOfDay (today + 1) ∧
    (∀ z, jsNewDate (preprocessDate today s) = some z → z < today →
      formatDate today s = isoOfDay (today + 1)) := by
  constructor
  · obtain ⟨z, hz⟩ := formatDate_eq_iso today s
    rw [hz, formatDate_isoOfDay]
  · intro z hz hlt
    unfold formatDate
    split
    · rfl
    · rw [hz]
      simp [hlt]

/-- Witness for C4 (amended) at the past date "June 1 2020" with today
2026-10-11. -/
theorem c4_date_normalization_witness :
    formatDate (daysFromCivil 2026 10 11)
        (formatDate (daysFromCivil 2026 10 11) "June 1 2020") =
      isoOfDay (daysFromCivil 2026 10 11 + 1) ∧
    formatDate (daysFromCivil 2026 10 11) "June 1 2020" =
      isoOfDay (daysFromCivil 2026 10 11 + 1) :=
  ⟨(c4_date_normalization (daysFromCivil 2026 10 11) "June 1 2020").1,
   (c4_date_normalization (daysFromCivil 2026 10 11) "June 1 2020").2
     (daysFromCivil 2020 6 1) (by decide) (by decide)⟩

/-- Counterexample to C4 as stated: "December 25 2026" (today 2026-10-11)
normalizes to "2026-12-25", but re-normalizing that yields "2026-10-12"
(tomorrow) — the year-append check does not recognize the normalized
form, the re-parse fails, and the fallback returns tomorrow. -/
theorem c4_idempotence_counterexample :
    formatDate (daysFromCivil 2026 10 11) "December 25 2026" = "2026-12-25" ∧
    formatDate (daysFromCivil 2026 10 11)
        (formatDate (daysFromCivil 2026 10 11) "December 25 2026") = "2026-10-12" ∧
    formatDate (daysFromCivil 2026 10 11) "December 25 2026" ≠
      formatDate (daysFromCivil 2026 10 11)
        (formatDate (daysFromCivil 2026 10 11) "December 25 2026") := by
  refine ⟨rfl, rfl, by decide⟩
